import Mathlib

/-!
GlitchSnitch: a shallow embedding of the macros of `glitchsnitch.h`.

Every macro of the header is a statement placed in the body of a C function.
A macro expansion is embedded as a function from the (already evaluated)
values of its arguments to a `Step`: the lines it prints, in order, and where
control goes afterwards (next statement, `return v` from the enclosing
function, or `exit(code)` of the whole process).  Macros that read or write the
static counters take the counters as an explicit argument and give them back.
-/

namespace GlitchSnitch

/-! ## Data model -/

/-- Output stream of one print call: `printf` writes to stdout,
`fprintf(stderr, ...)` to stderr. -/
inductive Stream
  | stdout
  | stderr
  deriving DecidableEq

/-- One call of `printf` / `fprintf`: the stream and the formatted text. -/
structure Line where
  stream : Stream
  text : String
  deriving DecidableEq

/-- Where control goes after a statement of a function body. -/
inductive Ctl
  /-- falls through to the next statement -/
  | next
  /-- `return v;` leaves the enclosing function with value `v` -/
  | returns (v : Int)
  /-- `exit(code);` ends the process -/
  | exits (code : Int)
  deriving DecidableEq

/-- Observable effect of one statement: lines printed, then the control outcome. -/
structure Step where
  out : List Line
  ctl : Ctl
  deriving DecidableEq

/-- Sequential composition `s1; s2` of two statements: `s2` runs only when
`s1` falls through. -/
def Step.andThen (s1 s2 : Step) : Step :=
  match s1.ctl with
  | .next => ⟨s1.out ++ s2.out, s2.ctl⟩
  | _ => s1

/-- The text `needle` occurs inside `text`. -/
def Contains (text needle : String) : Prop :=
  ∃ pre post : String, text = pre ++ needle ++ post

/-- `EXIT_FAILURE` of `<stdlib.h>`. -/
def EXIT_FAILURE : Int := 1

/-- The conversion `(int)(x)` of an integer value to the 32-bit `int`. -/
def to_int (x : Int) : Int := (x + 2 ^ 31) % 2 ^ 32 - 2 ^ 31

/-- The `%d` conversion of `printf` applied to an `int`. -/
def fmt_d (x : Int) : String := toString x

/-! ## Basic assertions -/

/-- `TEST_ASSERT(condition, message)` (glitchsnitch.h:196-204). -/
def TEST_ASSERT (condition : Bool) (message : String) : Step :=
  if !condition then
    ⟨[⟨.stderr, "FAIL: " ++ message ++ "\n"⟩], .returns 0⟩
  else
    ⟨[⟨.stdout, "PASS: " ++ message ++ "\n"⟩], .next⟩

/-! ## Crash sandbox -/

/-- Termination status that `waitpid(pid, &status, 0)` stores for a child:
without `WUNTRACED` / `WCONTINUED` the child either exited normally with an
exit code or was killed by a signal. -/
inductive WaitStatus
  | exited (code : Nat)
  | signaled (sig : Nat)
  deriving DecidableEq

/-- `WIFEXITED(status)` of `<sys/wait.h>`. -/
def WIFEXITED : WaitStatus → Bool
  | .exited _ => true
  | .signaled _ => false

/-- `WEXITSTATUS(status)` of `<sys/wait.h>`: the exit code of a child that
exited; on a signaled status the exit-code bits are zero. -/
def WEXITSTATUS : WaitStatus → Int
  | .exited code => code
  | .signaled _ => 0

/-- `TEST_EXPECT_CRASH(test_code, message)` (glitchsnitch.h:223-242), seen from
the process in which `fork()` returned `pid`.  `test_code` is the run of the
block (it is executed only in the child, `pid == 0`); `status` is what
`waitpid` stores in the parent. -/
def TEST_EXPECT_CRASH (pid : Int) (test_code : Step) (status : WaitStatus)
    (message : String) : Step :=
  if pid = 0 then
    test_code.andThen ⟨[], .exits 0⟩
  else if pid > 0 then
    if WIFEXITED status && WEXITSTATUS status == 0 then
      ⟨[⟨.stderr, "FAIL: " ++ message ++ " (expected crash but didn't crash)\n"⟩], .returns 0⟩
    else
      ⟨[⟨.stdout, "PASS: " ++ message ++ " (crashed as expected)\n"⟩], .next⟩
  else
    ⟨[⟨.stderr, "FAIL: fork() failed for crash test\n"⟩], .returns 0⟩

/-! ## Comparison assertions -/

/-- `strcmp` of `<string.h>`: zero exactly on equal strings, otherwise the sign
of the lexicographic comparison. -/
def strcmp (a b : String) : Int :=
  if a = b then 0 else if a < b then -1 else 1

/-- The null pointer; pointers are addresses. -/
def NULL : Nat := 0

/-- `TEST_ASSERT_EQ(actual, expected, message)` (glitchsnitch.h:276-284). -/
def TEST_ASSERT_EQ (actual expected : Int) (message : String) : Step :=
  if actual != expected then
    ⟨[⟨.stderr, "FAIL: " ++ message ++ " - Expected: " ++ fmt_d (to_int expected) ++
        ", Got: " ++ fmt_d (to_int actual) ++ "\n"⟩], .returns 0⟩
  else
    ⟨[⟨.stdout, "PASS: " ++ message ++ "\n"⟩], .next⟩

/-- `TEST_ASSERT_STR_EQ(actual, expected, message)` (glitchsnitch.h:286-294). -/
def TEST_ASSERT_STR_EQ (actual expected : String) (message : String) : Step :=
  if strcmp actual expected != 0 then
    ⟨[⟨.stderr, "FAIL: " ++ message ++ " - Expected: \"" ++ expected ++
        "\", Got: \"" ++ actual ++ "\"\n"⟩], .returns 0⟩
  else
    ⟨[⟨.stdout, "PASS: " ++ message ++ "\n"⟩], .next⟩

/-- `TEST_ASSERT_NOT_NULL(ptr, message)` (glitchsnitch.h:296-304). -/
def TEST_ASSERT_NOT_NULL (ptr : Nat) (message : String) : Step :=
  if ptr == NULL then
    ⟨[⟨.stderr, "FAIL: " ++ message ++ " - Pointer is NULL\n"⟩], .returns 0⟩
  else
    ⟨[⟨.stdout, "PASS: " ++ message ++ "\n"⟩], .next⟩

/-- `TEST_ASSERT_NULL(ptr, message)` (glitchsnitch.h:306-314). -/
def TEST_ASSERT_NULL (ptr : Nat) (message : String) : Step :=
  if ptr != NULL then
    ⟨[⟨.stderr, "FAIL: " ++ message ++ " - Expected NULL pointer\n"⟩], .returns 0⟩
  else
    ⟨[⟨.stdout, "PASS: " ++ message ++ "\n"⟩], .next⟩

/-- The scan loop of `TEST_ASSERT_ARRAY_EQ`,
`for (int _i = i; _i < size; _i++) if (actual[_i] != expected[_i]) { _arrays_equal = 0; break; }`,
with `remaining = size - i` indices left.  Gives the final `_arrays_equal` and
the final `_i`; `none` when an element outside one of the arrays is read. -/
def array_eq_scan (actual expected : List Int) : Nat → Nat → Option (Bool × Nat)
  | 0, i => some (true, i)
  | remaining + 1, i =>
    match actual[i]?, expected[i]? with
    | some a, some e =>
      if a != e then some (false, i)
      else array_eq_scan actual expected remaining (i + 1)
    | _, _ => none

/-- `TEST_ASSERT_ARRAY_EQ(actual, expected, size, message)` (glitchsnitch.h:398-413).
A `size <= 0` gives an empty scan. -/
def TEST_ASSERT_ARRAY_EQ (actual expected : List Int) (size : Int) (message : String) :
    Option Step :=
  match array_eq_scan actual expected size.toNat 0 with
  | none => none
  | some (_arrays_equal, _) =>
    if !_arrays_equal then
      some ⟨[⟨.stderr, "FAIL: " ++ message ++ " - Arrays differ\n"⟩], .returns 0⟩
    else
      some ⟨[⟨.stdout, "PASS: " ++ message ++ "\n"⟩], .next⟩

/-- `TEST_ASSERT_FLOAT_EQ(actual, expected, epsilon, message)` (glitchsnitch.h:416-427),
the doubles taken as exact rationals; `fmt_f` is the `%f` conversion of `printf`. -/
def TEST_ASSERT_FLOAT_EQ (fmt_f : ℚ → String) (actual expected epsilon : ℚ)
    (message : String) : Step :=
  let _diff := actual - expected
  let _diff := if _diff < 0 then -_diff else _diff
  if _diff > epsilon then
    ⟨[⟨.stderr, "FAIL: " ++ message ++ " - Expected: " ++ fmt_f expected ++ ", Got: " ++
        fmt_f actual ++ " (diff: " ++ fmt_f _diff ++ ")\n"⟩], .returns 0⟩
  else
    ⟨[⟨.stdout, "PASS: " ++ message ++ "\n"⟩], .next⟩

/-- A C `double` with its special values: a finite number, one of the two
infinities, or NaN.  Arithmetic on finite values is taken as exact (rounding and
the overflow of a finite result are not modelled), and the two zeros are one
value. -/
inductive Double
  | finite (q : ℚ)
  | pinf
  | ninf
  | nan
  deriving DecidableEq

/-- The difference `a - b` of two doubles: NaN when an operand is NaN or the
operands are the same infinity. -/
def Double.sub : Double → Double → Double
  | .nan, _ => .nan
  | _, .nan => .nan
  | .finite p, .finite q => .finite (p - q)
  | .finite _, .pinf => .ninf
  | .finite _, .ninf => .pinf
  | .pinf, .pinf => .nan
  | .pinf, _ => .pinf
  | .ninf, .ninf => .nan
  | .ninf, _ => .ninf

/-- The negation `-a` of a double. -/
def Double.neg : Double → Double
  | .finite q => .finite (-q)
  | .pinf => .ninf
  | .ninf => .pinf
  | .nan => .nan

/-- The comparison `a < b` of two doubles: false as soon as an operand is NaN. -/
def Double.lt : Double → Double → Bool
  | .nan, _ => false
  | _, .nan => false
  | .finite p, .finite q => decide (p < q)
  | .finite _, .pinf => true
  | .finite _, .ninf => false
  | .pinf, _ => false
  | .ninf, .ninf => false
  | .ninf, _ => true

/-- The comparison `a == b` of two doubles: false as soon as an operand is NaN. -/
def Double.eq : Double → Double → Bool
  | .finite p, .finite q => decide (p = q)
  | .pinf, .pinf => true
  | .ninf, .ninf => true
  | _, _ => false

/-- `TEST_ASSERT_FLOAT_EQ(actual, expected, epsilon, message)`
(glitchsnitch.h:416-427) on doubles with their special values; `_diff < 0`
compares with the double 0 and `_diff > (epsilon)` is `epsilon < _diff`; `fmt_f`
is the `%f` conversion of `printf`. -/
def TEST_ASSERT_FLOAT_EQ_double (fmt_f : Double → String) (actual expected epsilon : Double)
    (message : String) : Step :=
  let _diff := Double.sub actual expected
  let _diff := if Double.lt _diff (.finite 0) then Double.neg _diff else _diff
  if Double.lt epsilon _diff then
    ⟨[⟨.stderr, "FAIL: " ++ message ++ " - Expected: " ++ fmt_f expected ++ ", Got: " ++
        fmt_f actual ++ " (diff: " ++ fmt_f _diff ++ ")\n"⟩], .returns 0⟩
  else
    ⟨[⟨.stdout, "PASS: " ++ message ++ "\n"⟩], .next⟩

/-- `TEST_ASSERT_IN_RANGE(value, min, max, message)` (glitchsnitch.h:430-439). -/
def TEST_ASSERT_IN_RANGE (value min max : Int) (message : String) : Step :=
  if value < min || value > max then
    ⟨[⟨.stderr, "FAIL: " ++ message ++ " - Value " ++ fmt_d (to_int value) ++
        " not in range [" ++ fmt_d (to_int min) ++ ", " ++ fmt_d (to_int max) ++ "]\n"⟩],
      .returns 0⟩
  else
    ⟨[⟨.stdout, "PASS: " ++ message ++ "\n"⟩], .next⟩

/-- The loop of `copy_array` (example.c:19-23),
`for (int i = i0; i < size; i++) dest[i] = src[i];`, with `remaining = size - i0`
indices left; `none` when an index outside `src` or `dest` is used. -/
def copy_array_loop (src : List Int) : Nat → Nat → List Int → Option (List Int)
  | 0, _, dest => some dest
  | remaining + 1, i, dest =>
    match src[i]? with
    | some v =>
      if i < dest.length then copy_array_loop src remaining (i + 1) (dest.set i v)
      else none
    | none => none

/-- `copy_array(dest, src, size)` (example.c:19-23) on two separate arrays:
the contents of `dest` afterwards. -/
def copy_array (dest src : List Int) (size : Int) : Option (List Int) :=
  copy_array_loop src size.toNat 0 dest

/-! ## Stress test -/

/-- The loop of `STRESS_TEST`,
`for (...; _i < iterations; _i++) if (!(test_code)) _failures++;`, with
`remaining` iterations left.  `test_code` is evaluated in the current program
state and may change it (a call of `rand()` does). -/
def stress_loop {σ : Type} (test_code : σ → Bool × σ) : Nat → Int → σ → Int × σ
  | 0, _failures, s => (_failures, s)
  | remaining + 1, _failures, s =>
    let r := test_code s
    stress_loop test_code remaining (if !r.1 then _failures + 1 else _failures) r.2

/-- `STRESS_TEST(iterations, test_code, message)` (glitchsnitch.h:501-516). -/
def STRESS_TEST {σ : Type} (iterations : Int) (test_code : σ → Bool × σ)
    (message : String) (s : σ) : Step × σ :=
  let r := stress_loop test_code iterations.toNat 0 s
  let _failures := r.1
  if _failures > 0 then
    (⟨[⟨.stdout, "STRESS TEST: " ++ message ++ " (" ++ fmt_d iterations ++ " iterations)\n"⟩,
       ⟨.stderr, "STRESS TEST FAIL: " ++ fmt_d _failures ++ "/" ++ fmt_d iterations ++
          " iterations failed\n"⟩], .returns 0⟩, r.2)
  else
    (⟨[⟨.stdout, "STRESS TEST: " ++ message ++ " (" ++ fmt_d iterations ++ " iterations)\n"⟩,
       ⟨.stdout, "STRESS TEST PASS: All " ++ fmt_d iterations ++ " iterations passed\n"⟩],
      .next⟩, r.2)

/-! ## Test units made of assertions -/

/-- One call of a macro of the `TEST_ASSERT` family, with its arguments. -/
inductive Assertion
  | assert (condition : Bool) (message : String)
  | eq (actual expected : Int) (message : String)
  | str_eq (actual expected : String) (message : String)
  | not_null (ptr : Nat) (message : String)
  | null (ptr : Nat) (message : String)
  | array_eq (actual expected : List Int) (size : Int) (message : String)
  | float_eq (actual expected epsilon : ℚ) (message : String)
  | in_range (value min max : Int) (message : String)

/-- The message argument of an assertion call. -/
def Assertion.message : Assertion → String
  | .assert _ m => m
  | .eq _ _ m => m
  | .str_eq _ _ m => m
  | .not_null _ m => m
  | .null _ m => m
  | .array_eq _ _ _ m => m
  | .float_eq _ _ _ m => m
  | .in_range _ _ _ m => m

/-- Expansion of an assertion call; `none` when it reads outside an array. -/
def Assertion.exec (fmt_f : ℚ → String) : Assertion → Option Step
  | .assert c m => some (TEST_ASSERT c m)
  | .eq a e m => some (TEST_ASSERT_EQ a e m)
  | .str_eq a e m => some (TEST_ASSERT_STR_EQ a e m)
  | .not_null p m => some (TEST_ASSERT_NOT_NULL p m)
  | .null p m => some (TEST_ASSERT_NULL p m)
  | .array_eq a e n m => TEST_ASSERT_ARRAY_EQ a e n m
  | .float_eq a e eps m => some (TEST_ASSERT_FLOAT_EQ fmt_f a e eps m)
  | .in_range v lo hi m => some (TEST_ASSERT_IN_RANGE v lo hi m)

/-- The predicate an assertion call asserts, in the words of the specification. -/
def Assertion.Holds : Assertion → Prop
  | .assert c _ => c = true
  | .eq a e _ => a = e
  | .str_eq a e _ => a = e
  | .not_null p _ => p ≠ NULL
  | .null p _ => p = NULL
  | .array_eq a e n _ => ∀ i : Nat, (i : Int) < n → a[i]? = e[i]?
  | .float_eq a e eps _ => |a - e| ≤ eps
  | .in_range v lo hi _ => lo ≤ v ∧ v ≤ hi

/-- The arrays handed to an array assertion have at least `size` elements. -/
def Assertion.InBounds : Assertion → Prop
  | .array_eq a e n _ => n ≤ (a.length : Int) ∧ n ≤ (e.length : Int)
  | _ => True

/-- How a called function ended. -/
inductive Outcome
  | returned (v : Int)
  | exited (code : Int)
  deriving DecidableEq

/-- Run of a called function: the lines it printed and how it ended. -/
structure Call where
  out : List Line
  outcome : Outcome
  deriving DecidableEq

/-- A test unit `int test(void) { A1; ...; An; return 1; }` whose statements
are assertion calls: the statements run in order until one of them leaves the
function. -/
def unit_of_assertions (fmt_f : ℚ → String) : List Assertion → Option Call
  | [] => some ⟨[], .returned 1⟩
  | a :: rest =>
    match a.exec fmt_f with
    | none => none
    | some s =>
      match s.ctl with
      | .next => (unit_of_assertions fmt_f rest).map fun c => ⟨s.out ++ c.out, c.outcome⟩
      | .returns v => some ⟨s.out, .returned v⟩
      | .exits code => some ⟨s.out, .exited code⟩

/-! ## Test runner -/

/-- The static counters `tests_passed`, `tests_failed`, `total_tests`
(glitchsnitch.h:170-172).  They are C `int`s; the integers of the model follow
them as long as no counter is incremented past `INT_MAX`. -/
structure Counters where
  tests_passed : Int
  tests_failed : Int
  total_tests : Int
  deriving DecidableEq

/-- The initial values of the counters. -/
def Counters.init : Counters := ⟨0, 0, 0⟩

/-- `RUN_TEST(test_func)` (glitchsnitch.h:208-219); `name` is `#test_func` and
`test_func` the run of the call `test_func()`.  A unit that ends the process
never comes back to the macro. -/
def RUN_TEST (name : String) (test_func : Call) (c : Counters) : Step × Counters :=
  match test_func.outcome with
  | .exited code =>
    (⟨⟨.stdout, "Running " ++ name ++ "...\n"⟩ :: test_func.out, .exits code⟩, c)
  | .returned r =>
    if r != 0 then
      (⟨⟨.stdout, "Running " ++ name ++ "...\n"⟩ :: test_func.out ++
          [⟨.stdout, "✓ " ++ name ++ " passed\n\n"⟩], .next⟩,
        ⟨c.tests_passed + 1, c.tests_failed, c.total_tests + 1⟩)
    else
      (⟨⟨.stdout, "Running " ++ name ++ "...\n"⟩ :: test_func.out ++
          [⟨.stdout, "✗ " ++ name ++ " failed\n\n"⟩], .next⟩,
        ⟨c.tests_passed, c.tests_failed + 1, c.total_tests + 1⟩)

/-- A sequence of statements `RUN_TEST(f1); ...; RUN_TEST(fk);` as in `main`
(example.c:312-324). -/
def run_tests : List (String × Call) → Counters → Step × Counters
  | [], c => (⟨[], .next⟩, c)
  | (name, test_func) :: rest, c =>
    let r := RUN_TEST name test_func c
    match r.1.ctl with
    | .next =>
      let r2 := run_tests rest r.2
      (⟨r.1.out ++ r2.1.out, r2.1.ctl⟩, r2.2)
    | _ => r

/-- Division of two doubles, taken as exact rationals; `none` stands for the
division by zero, whose result is not a number of the model. -/
def fdiv (a b : ℚ) : Option ℚ :=
  if b = 0 then none else some (a / b)

/-- The success rate handed to `printf` by `PRINT_TEST_SUMMARY`:
`total_tests > 0 ? (tests_passed * 100.0) / total_tests : 0.0`. -/
def success_rate (c : Counters) : Option ℚ :=
  if c.total_tests > 0 then fdiv ((c.tests_passed : ℚ) * 100) (c.total_tests : ℚ)
  else some 0

/-- `PRINT_TEST_SUMMARY()` (glitchsnitch.h:326-334); `fmt_1f` is the `%.1f`
conversion of `printf`.  The counters are read, not written. -/
def PRINT_TEST_SUMMARY (fmt_1f : ℚ → String) (c : Counters) : Option (Step × Counters) :=
  match success_rate c with
  | none => none
  | some rate =>
    some (⟨[⟨.stdout, "\n=== TEST SUMMARY ===\n"⟩,
            ⟨.stdout, "Total tests: " ++ fmt_d c.total_tests ++ "\n"⟩,
            ⟨.stdout, "Passed: " ++ fmt_d c.tests_passed ++ "\n"⟩,
            ⟨.stdout, "Failed: " ++ fmt_d c.tests_failed ++ "\n"⟩,
            ⟨.stdout, "Success rate: " ++ fmt_1f rate ++ "%\n"⟩,
            ⟨.stdout, "==================\n"⟩], .next⟩, c)

/-! ## Fatal checks

`file` and `line` are the values of `__FILE__` and `__LINE__` at the place of
the expansion; a `_text` argument is the source text of a macro argument
(`#ptr`, `#call`, `#var`). -/

/-- `CHECK_PTR(ptr)` (glitchsnitch.h:245-251). -/
def CHECK_PTR (ptr : Nat) (ptr_text file : String) (line : Int) : Step :=
  if ptr == NULL then
    ⟨[⟨.stderr, "ERROR: NULL POINTER DETECTED: " ++ ptr_text ++ " AT " ++ file ++ ":" ++
        fmt_d line ++ "\n"⟩], .exits EXIT_FAILURE⟩
  else
    ⟨[], .next⟩

/-- `CHECK(condition, msg)` (glitchsnitch.h:255-263). -/
def CHECK (condition : Bool) (msg file : String) (line : Int) : Step :=
  if !condition then
    ⟨[⟨.stderr, "ERROR: " ++ msg ++ " (" ++ file ++ ":" ++ fmt_d line ++ ")\n"⟩],
      .exits EXIT_FAILURE⟩
  else
    ⟨[], .next⟩

/-- `ERROR_CHECK(call, expected)` (glitchsnitch.h:266-273); `call` is the value
the call returned. -/
def ERROR_CHECK (call : Int) (call_text : String) (expected : Int) : Step :=
  let _ret := call
  if _ret != expected then
    ⟨[⟨.stderr, "ERROR: call '" ++ call_text ++ "' returned " ++ fmt_d _ret ++
        ", expected " ++ fmt_d expected ++ "\n"⟩], .exits EXIT_FAILURE⟩
  else
    ⟨[], .next⟩

/-- `CHECK_BOUNDS(index, size, msg)` (glitchsnitch.h:337-344). -/
def CHECK_BOUNDS (index size : Int) (msg file : String) (line : Int) : Step :=
  if index < 0 || index >= size then
    ⟨[⟨.stderr, "ERROR: BOUNDS CHECK FAILED: " ++ msg ++ " - index " ++ fmt_d (to_int index) ++
        " out of bounds [0, " ++ fmt_d (to_int size) ++ ") at " ++ file ++ ":" ++
        fmt_d line ++ "\n"⟩], .exits EXIT_FAILURE⟩
  else
    ⟨[], .next⟩

/-- `CHECK_ERRNO(call, msg)` (glitchsnitch.h:346-352); `call` is the value the
call returned and `strerror_errno` the text of `strerror(errno)`. -/
def CHECK_ERRNO (call : Int) (msg strerror_errno file : String) (line : Int) : Step :=
  if call == -1 then
    ⟨[⟨.stderr, "ERROR: " ++ msg ++ " failed: " ++ strerror_errno ++ " (" ++ file ++ ":" ++
        fmt_d line ++ ")\n"⟩], .exits EXIT_FAILURE⟩
  else
    ⟨[], .next⟩

/-- `CHECK_ALLOC(ptr, msg)` (glitchsnitch.h:354-360). -/
def CHECK_ALLOC (ptr : Nat) (msg file : String) (line : Int) : Step :=
  if ptr == NULL then
    ⟨[⟨.stderr, "ERROR: MEMORY ALLOCATION FAILED: " ++ msg ++ " at " ++ file ++ ":" ++
        fmt_d line ++ "\n"⟩], .exits EXIT_FAILURE⟩
  else
    ⟨[], .next⟩

/-- `ASSERT_UNREACHABLE(msg)` (glitchsnitch.h:376-380). -/
def ASSERT_UNREACHABLE (msg file : String) (line : Int) : Step :=
  ⟨[⟨.stderr, "ERROR: UNREACHABLE CODE REACHED: " ++ msg ++ " at " ++ file ++ ":" ++
      fmt_d line ++ "\n"⟩], .exits EXIT_FAILURE⟩

/-! ## Advisory output, skipping, buffer check -/

/-- `WARN(condition, msg)` (glitchsnitch.h:362-367). -/
def WARN (condition : Bool) (msg file : String) (line : Int) : Step :=
  if !condition then
    ⟨[⟨.stderr, "WARNING: " ++ msg ++ " (" ++ file ++ ":" ++ fmt_d line ++ ")\n"⟩], .next⟩
  else
    ⟨[], .next⟩

/-- `TEST_SKIP(condition, message)` (glitchsnitch.h:442-448). -/
def TEST_SKIP (condition : Bool) (message : String) : Step :=
  if condition then
    ⟨[⟨.stdout, "SKIP: " ++ message ++ "\n"⟩], .returns 1⟩
  else
    ⟨[], .next⟩

/-- `TEST_BUFFER_OVERFLOW(buffer, size, write_size, message)`
(glitchsnitch.h:534-543); the contents of the buffer are given back. -/
def TEST_BUFFER_OVERFLOW (buffer : List Int) (size write_size : Int) (message : String) :
    Step × List Int :=
  if write_size > size then
    (⟨[⟨.stderr, "FAIL: " ++ message ++ " - Buffer overflow detected (writing " ++
        fmt_d (to_int write_size) ++ " bytes to " ++ fmt_d (to_int size) ++
        " byte buffer)\n"⟩], .returns 0⟩, buffer)
  else
    (⟨[⟨.stdout, "PASS: " ++ message ++ "\n"⟩], .next⟩, buffer)

/-! ## Allocation ledger -/

/-- The two static counters declared by `MALLOC_COUNT_START()`
(glitchsnitch.h:451-453). -/
structure Ledger where
  _malloc_count : Int
  _free_count : Int
  deriving DecidableEq

/-- `MALLOC_COUNT_START()`: both counters start at 0. -/
def MALLOC_COUNT_START : Ledger := ⟨0, 0⟩

/-- `TRACK_MALLOC(ptr)` (glitchsnitch.h:455-458). -/
def TRACK_MALLOC (ptr : Nat) (l : Ledger) : Ledger :=
  if ptr != NULL then ⟨l._malloc_count + 1, l._free_count⟩ else l

/-- `TRACK_FREE(ptr)` (glitchsnitch.h:460-463). -/
def TRACK_FREE (ptr : Nat) (l : Ledger) : Ledger :=
  if ptr != NULL then ⟨l._malloc_count, l._free_count + 1⟩ else l

/-- `CHECK_MEMORY_LEAKS()` (glitchsnitch.h:465-472); the ledger is read, not
written. -/
def CHECK_MEMORY_LEAKS (l : Ledger) : Step × Ledger :=
  if l._malloc_count != l._free_count then
    (⟨[⟨.stderr, "MEMORY LEAK: " ++ fmt_d l._malloc_count ++ " mallocs, " ++
        fmt_d l._free_count ++ " frees\n"⟩], .next⟩, l)
  else
    (⟨[⟨.stdout, "MEMORY: All allocations freed (" ++ fmt_d l._malloc_count ++ " mallocs, " ++
        fmt_d l._free_count ++ " frees)\n"⟩], .next⟩, l)

/-! ## Debugging output -/

/-- The environment of the process: a variable is unset (`none`) or set to a
value, which may be the empty string. -/
abbrev Env := String → Option String

/-- `getenv(name)` of `<stdlib.h>`: `none` is the null pointer returned for an
unset variable; a set variable gives a pointer to its value. -/
def getenv (env : Env) (name : String) : Option String := env name

/-- `setenv(name, value, 1)` of `<stdlib.h>`. -/
def setenv (env : Env) (name value : String) : Env :=
  fun n => if n = name then some value else env n

/-- `unsetenv(name)` of `<stdlib.h>`. -/
def unsetenv (env : Env) (name : String) : Env :=
  fun n => if n = name then none else env n

/-- `DEBUG_PRINT(fmt, ...)` (glitchsnitch.h:369-374); `text` is the rendering of
`fmt` with the variadic arguments. -/
def DEBUG_PRINT (env : Env) (text file : String) (line : Int) : Step :=
  if (getenv env "DEBUG").isSome then
    ⟨[⟨.stderr, "DEBUG (" ++ file ++ ":" ++ fmt_d line ++ "): " ++ text ++ "\n"⟩], .next⟩
  else
    ⟨[], .next⟩

/-- `TRACE_FUNCTION()` (glitchsnitch.h:519-524); `func` is `__func__`. -/
def TRACE_FUNCTION (env : Env) (func file : String) (line : Int) : Step :=
  if (getenv env "TRACE").isSome then
    ⟨[⟨.stderr, "TRACE: Entering " ++ func ++ " (" ++ file ++ ":" ++ fmt_d line ++ ")\n"⟩],
      .next⟩
  else
    ⟨[], .next⟩

/-- `LOG_VAR(var)` (glitchsnitch.h:526-531). -/
def LOG_VAR (env : Env) (var_text : String) (var : Int) (file : String) (line : Int) : Step :=
  if (getenv env "DEBUG").isSome then
    ⟨[⟨.stderr, "DEBUG: " ++ var_text ++ " = " ++ fmt_d (to_int var) ++ " (" ++ file ++ ":" ++
        fmt_d line ++ ")\n"⟩], .next⟩
  else
    ⟨[], .next⟩

/-! ## Function bodies, calls and the example program -/

/-- A test unit `int test(void) { S1; ...; Sn; return 1; }`: the statements run
in order until one of them leaves the function or ends the process. -/
def unit_of_steps : List Step → Call
  | [] => ⟨[], .returned 1⟩
  | s :: rest =>
    match s.ctl with
    | .next => ⟨s.out ++ (unit_of_steps rest).out, (unit_of_steps rest).outcome⟩
    | .returns v => ⟨s.out, .returned v⟩
    | .exits code => ⟨s.out, .exited code⟩

/-- Statement `s` followed by the statements `k`, which are evaluated only when
`s` falls through; `none` stands for undefined behaviour. -/
def Step.bind (s : Step) (k : Unit → Option Step) : Option Step :=
  match s.ctl with
  | .next => (k ()).map fun t => ⟨s.out ++ t.out, t.ctl⟩
  | _ => some s

/-- The expression statement `f();` in a caller, given the run of the body of
`f`: the caller goes on unless the body ended the process. -/
def call_stmt (body : Step) : Step :=
  ⟨body.out, match body.ctl with
    | .exits code => .exits code
    | _ => .next⟩

/-- Body of `divide_by_zero()` (example.c:33-38); the division by zero is
undefined behaviour. -/
def divide_by_zero (file : String) : Option Step :=
  let x : Int := 10
  let y : Int := 0
  (CHECK (y != 0) "Division by zero" file 36).bind fun _ =>
    if y = 0 then none else some ⟨[], .returns (Int.tdiv x y)⟩

/-- Body of `access_null_pointer()` (example.c:40-44); the store through a null
pointer is undefined behaviour. -/
def access_null_pointer (file : String) : Option Step :=
  let ptr : Nat := NULL
  (CHECK_PTR ptr "ptr" file 42).bind fun _ =>
    if ptr = NULL then none else some ⟨[], .next⟩

/-- The status `waitpid` reports for a child that ended with `exit(code)`: a
normal exit with the low eight bits of `code`. -/
def status_of_exit (code : Int) : WaitStatus := .exited (code % 256).toNat

/-- `TEST_EXPECT_CRASH` in the parent when `fork` gave the child pid `pid` and
the child, which is the same expansion with `pid == 0`, ends by `exit`: the
parent classifies the status of that exit.  `none` when the child does not end
inside the expansion (its block leaves the unit by `return`). -/
def sandbox (pid : Int) (test_code : Step) (message : String) : Option Step :=
  match (TEST_EXPECT_CRASH 0 test_code (.exited 0) message).ctl with
  | .exits code => some (TEST_EXPECT_CRASH pid test_code (status_of_exit code) message)
  | _ => none

/-- Body of `test_crash_scenarios()` (example.c:131-141) in the process where the
two calls of `fork` returned `pid1` and `pid2`; `status1` and `status2` are
what `waitpid` stores for the two children. -/
def test_crash_scenarios (env : Env) (file : String) (pid1 : Int) (status1 : WaitStatus)
    (pid2 : Int) (status2 : WaitStatus) : Option Call :=
  match (divide_by_zero file).map call_stmt, (access_null_pointer file).map call_stmt with
  | some block1, some block2 =>
    some (unit_of_steps
      [TRACE_FUNCTION env "test_crash_scenarios" file 132,
        TEST_EXPECT_CRASH pid1 block1 status1 "Division by zero should crash",
        TEST_EXPECT_CRASH pid2 block2 status2 "Null pointer access should crash"])
  | _, _ => none

/-- `BENCHMARK_END(operation_name)` (glitchsnitch.h:319-324); `_cpu_time` is the
measured time and `fmt_f` the `%f` conversion. -/
def BENCHMARK_END (fmt_f : ℚ → String) (operation_name : String) (_cpu_time : ℚ) : Step :=
  ⟨[⟨.stdout, "BENCHMARK: " ++ operation_name ++ " took " ++ fmt_f _cpu_time ++
      " seconds\n"⟩], .next⟩

/-- The value `(tests_failed == 0) ? 0 : 1` returned by `main` (example.c:333). -/
def main_return (c : Counters) : Int :=
  if c.tests_failed == 0 then 0 else 1

/-- `main()` of example.c (300-334) over the runs of the units it hands to
`RUN_TEST`, from the initial counters. -/
def main (fmt_f fmt_1f : ℚ → String) (_cpu_time : ℚ) (units : List (String × Call)) :
    Option Call :=
  let banner : List Line :=
    [⟨.stdout, "=== GLITCHSNITCH MACRO EXAMPLES ===\n\n"⟩,
      ⟨.stdout, "Environment variables you can set:\n"⟩,
      ⟨.stdout, "  DEBUG=1     - Enable debug output\n"⟩,
      ⟨.stdout, "  TRACE=1     - Enable function tracing\n"⟩,
      ⟨.stdout, "  SKIP_SLOW_TESTS=1 - Skip slow tests\n\n"⟩]
  let r := run_tests units Counters.init
  match r.1.ctl with
  | .exits code => some ⟨banner ++ r.1.out, .exited code⟩
  | _ =>
    match PRINT_TEST_SUMMARY fmt_1f r.2 with
    | none => none
    | some (s, c) =>
      some ⟨banner ++ r.1.out ++ (BENCHMARK_END fmt_f "All tests" _cpu_time).out ++ s.out ++
        [⟨.stdout, "\n=== EXAMPLE COMPLETE ===\n"⟩], .returned (main_return c)⟩

/-- Exit status of a process whose `main` ran as `c`: the value returned by
`main`, or the argument of the `exit` that ended it. -/
def exit_status (c : Call) : Int :=
  match c.outcome with
  | .returned v => v
  | .exited code => code

/-! ## Specification-side notions -/

/-- Least value of the C type `int`. -/
def INT_MIN : Int := -2147483648

/-- Greatest value of the C type `int`. -/
def INT_MAX : Int := 2147483647

/-- The equation `total_tests == tests_passed + tests_failed`. -/
def Counters.Consistent (c : Counters) : Prop :=
  c.total_tests = c.tests_passed + c.tests_failed

/-- Number of units of a sequence that return 0. -/
def failed_units (units : List (String × Call)) : Nat :=
  units.countP fun u => u.2.outcome == .returned 0

/-- The values of `n` successive evaluations of `test_code`, the first one in
state `s`, each one in the state left by the one before. -/
def evaluations {σ : Type} (test_code : σ → Bool × σ) : Nat → σ → List Bool
  | 0, _ => []
  | n + 1, s => (test_code s).1 :: evaluations test_code n (test_code s).2

/-- The program state after `n` successive evaluations of `test_code`. -/
def state_after {σ : Type} (test_code : σ → Bool × σ) : Nat → σ → σ
  | 0, s => s
  | n + 1, s => state_after test_code n (test_code s).2

/-- One use of a macro of the fatal `CHECK` family, with its arguments. -/
inductive FatalCheck
  | check (condition : Bool) (msg : String)
  | check_ptr (ptr : Nat) (ptr_text : String)
  | check_alloc (ptr : Nat) (msg : String)
  | check_errno (call : Int) (msg strerror_errno : String)
  | error_check (call : Int) (call_text : String) (expected : Int)
  | check_bounds (index size : Int) (msg : String)
  | assert_unreachable (msg : String)

/-- Expansion of a fatal check placed at `file:line`. -/
def FatalCheck.exec (file : String) (line : Int) : FatalCheck → Step
  | .check c msg => CHECK c msg file line
  | .check_ptr p t => CHECK_PTR p t file line
  | .check_alloc p msg => CHECK_ALLOC p msg file line
  | .check_errno call msg e => CHECK_ERRNO call msg e file line
  | .error_check call t expected => ERROR_CHECK call t expected
  | .check_bounds i n msg => CHECK_BOUNDS i n msg file line
  | .assert_unreachable msg => ASSERT_UNREACHABLE msg file line

/-- The guard of a fatal check, in the words of the specification; reaching
`ASSERT_UNREACHABLE` is always a failure. -/
def FatalCheck.GuardHolds : FatalCheck → Prop
  | .check c _ => c = true
  | .check_ptr p _ => p ≠ NULL
  | .check_alloc p _ => p ≠ NULL
  | .check_errno call _ _ => call ≠ -1
  | .error_check call _ expected => call = expected
  | .check_bounds i n _ => 0 ≤ i ∧ i < n
  | .assert_unreachable _ => False

/-- One tracking call on the allocation ledger. -/
inductive LedgerOp
  | track_malloc (ptr : Nat)
  | track_free (ptr : Nat)

/-- The pointer handed to a tracking call. -/
def LedgerOp.ptr : LedgerOp → Nat
  | .track_malloc p => p
  | .track_free p => p

/-- The tracking call is a `TRACK_MALLOC`. -/
def LedgerOp.is_malloc : LedgerOp → Bool
  | .track_malloc _ => true
  | .track_free _ => false

/-- Expansion of a tracking call. -/
def LedgerOp.apply : LedgerOp → Ledger → Ledger
  | .track_malloc p, l => TRACK_MALLOC p l
  | .track_free p, l => TRACK_FREE p l

/-- A sequence of tracking calls, in order, from the ledger `l`. -/
def run_ledger : List LedgerOp → Ledger → Ledger
  | [], l => l
  | op :: rest, l => run_ledger rest (op.apply l)

/-! ## Random helpers -/

/-- `RAND_MAX` of `<stdlib.h>` in the GNU C library, whose `<error.h>` the
header includes: `rand()` returns a value between 0 and `RAND_MAX`. -/
def RAND_MAX : Int := 2147483647

/-- The result of an `int` operation whose mathematical value is `x`: `none`
when `x` is not representable (signed overflow is undefined behaviour). -/
def int_result (x : Int) : Option Int :=
  if INT_MIN ≤ x ∧ x ≤ INT_MAX then some x else none

/-- `RANDOM_INT(min, max)` (glitchsnitch.h:497),
`((rand() % ((max) - (min) + 1)) + (min))`, where `r` is the value returned by
`rand()`; `%` is the remainder of the division truncated towards zero.  `none`
when a subexpression overflows or the divisor is 0. -/
def RANDOM_INT (r min max : Int) : Option Int :=
  match int_result (max - min) with
  | none => none
  | some d =>
    match int_result (d + 1) with
    | none => none
    | some n =>
      if n = 0 then none
      else if r = INT_MIN ∧ n = -1 then none
      else int_result (Int.tmod r n + min)

/-! ## Auxiliary lemmas -/

/-- The line printed when `fork` fails differs from every line printed for a
missing crash: the former ends in `test\n`, the latter in `crash)\n`. -/
theorem fork_line_ne (M : String) :
    "FAIL: fork() failed for crash test\n" ≠
      "FAIL: " ++ M ++ " (expected crash but didn't crash)\n" := by
  intro h
  have h2 := congrArg (fun s : String => (s.data.reverse.take 2)) h
  simp [String.data_append] at h2

theorem to_int_of_int_range (x : Int) (h1 : -2147483648 ≤ x) (h2 : x ≤ 2147483647) :
    to_int x = x := by
  unfold to_int
  norm_num
  omega

theorem array_eq_scan_pass (actual expected : List Int) :
    ∀ (n i : Nat), (∀ k, k < n → ∃ v, actual[i + k]? = some v ∧ expected[i + k]? = some v) →
      array_eq_scan actual expected n i = some (true, i + n) := by
  intro n
  induction n with
  | zero => intro i _; rfl
  | succ n ih =>
    intro i h
    obtain ⟨v, hv1, hv2⟩ := h 0 (by omega)
    simp only [Nat.add_zero] at hv1 hv2
    have hrest : ∀ k, k < n → ∃ v, actual[i + 1 + k]? = some v ∧ expected[i + 1 + k]? = some v := by
      intro k hk
      have := h (k + 1) (by omega)
      rwa [show i + (k + 1) = i + 1 + k by omega] at this
    simp only [array_eq_scan, hv1, hv2, bne_self_eq_false, Bool.false_eq_true, if_false]
    rw [ih (i + 1) hrest]
    congr 2
    omega

theorem array_eq_scan_fail (actual expected : List Int) :
    ∀ (j n i : Nat) (a e : Int), j < n →
      (∀ k, k < j → ∃ v, actual[i + k]? = some v ∧ expected[i + k]? = some v) →
      actual[i + j]? = some a → expected[i + j]? = some e → a ≠ e →
      array_eq_scan actual expected n i = some (false, i + j) := by
  intro j
  induction j with
  | zero =>
    intro n i a e hn _ ha he hne
    obtain ⟨m, rfl⟩ : ∃ m, n = m + 1 := ⟨n - 1, by omega⟩
    simp only [Nat.add_zero] at ha he
    simp [array_eq_scan, ha, he, hne]
  | succ j ih =>
    intro n i a e hn h ha he hne
    obtain ⟨m, rfl⟩ : ∃ m, n = m + 1 := ⟨n - 1, by omega⟩
    obtain ⟨v, hv1, hv2⟩ := h 0 (by omega)
    simp only [Nat.add_zero] at hv1 hv2
    have hrest : ∀ k, k < j → ∃ v, actual[i + 1 + k]? = some v ∧ expected[i + 1 + k]? = some v := by
      intro k hk
      have := h (k + 1) (by omega)
      rwa [show i + (k + 1) = i + 1 + k by omega] at this
    simp only [array_eq_scan, hv1, hv2, bne_self_eq_false, Bool.false_eq_true, if_false]
    rw [ih m (i + 1) a e (by omega) hrest (by rwa [show i + 1 + j = i + (j + 1) by omega])
      (by rwa [show i + 1 + j = i + (j + 1) by omega]) hne]
    congr 2
    omega

theorem first_mismatch (P : Nat → Prop) (n : Nat) (h : ¬ ∀ k, k < n → P k) :
    ∃ j, j < n ∧ ¬ P j ∧ ∀ k, k < j → P k := by
  classical
  have hex : ∃ k, k < n ∧ ¬ P k := by
    by_contra hc
    exact h fun k hk => by
      by_contra hp
      exact hc ⟨k, hk, hp⟩
  refine ⟨Nat.find hex, (Nat.find_spec hex).1, (Nat.find_spec hex).2, ?_⟩
  intro k hk
  by_contra hp
  have hlt : k < n := Nat.lt_trans hk (Nat.find_spec hex).1
  exact Nat.find_min hex hk ⟨hlt, hp⟩

theorem array_assert_pass (actual expected : List Int) (size : Int) (M : String)
    (ha : size ≤ (actual.length : Int)) (_he : size ≤ (expected.length : Int))
    (h : ∀ i : Nat, (i : Int) < size → actual[i]? = expected[i]?) :
    TEST_ASSERT_ARRAY_EQ actual expected size M =
      some ⟨[⟨.stdout, "PASS: " ++ M ++ "\n"⟩], .next⟩ := by
  have hs : array_eq_scan actual expected size.toNat 0 = some (true, 0 + size.toNat) := by
    apply array_eq_scan_pass
    intro k hk
    have hk1 : (k : Int) < size := by omega
    have hk2 : k < actual.length := by omega
    refine ⟨actual[k], ?_, ?_⟩
    · simp [List.getElem?_eq_getElem hk2]
    · rw [Nat.zero_add, ← h k hk1, List.getElem?_eq_getElem hk2]
  simp [TEST_ASSERT_ARRAY_EQ, hs]

theorem array_assert_fail_at (actual expected : List Int) (size : Int) (M : String)
    (j : Nat) (a e : Int) (hj : (j : Int) < size)
    (hbefore : ∀ k, k < j → ∃ v, actual[k]? = some v ∧ expected[k]? = some v)
    (ha : actual[j]? = some a) (he : expected[j]? = some e) (hne : a ≠ e) :
    array_eq_scan actual expected size.toNat 0 = some (false, j) ∧
    TEST_ASSERT_ARRAY_EQ actual expected size M =
      some ⟨[⟨.stderr, "FAIL: " ++ M ++ " - Arrays differ\n"⟩], .returns 0⟩ := by
  have hs : array_eq_scan actual expected size.toNat 0 = some (false, 0 + j) := by
    apply array_eq_scan_fail actual expected j size.toNat 0 a e (by omega)
    · intro k hk
      rw [Nat.zero_add]
      exact hbefore k hk
    · rwa [Nat.zero_add]
    · rwa [Nat.zero_add]
    · exact hne
  rw [Nat.zero_add] at hs
  exact ⟨hs, by simp [TEST_ASSERT_ARRAY_EQ, hs]⟩

theorem array_assert_fail (actual expected : List Int) (size : Int) (M : String)
    (ha : size ≤ (actual.length : Int)) (he : size ≤ (expected.length : Int))
    (h : ¬ ∀ i : Nat, (i : Int) < size → actual[i]? = expected[i]?) :
    TEST_ASSERT_ARRAY_EQ actual expected size M =
      some ⟨[⟨.stderr, "FAIL: " ++ M ++ " - Arrays differ\n"⟩], .returns 0⟩ := by
  have h2 : ¬ ∀ k, k < size.toNat → actual[k]? = expected[k]? := by
    intro hc
    exact h fun i hi => hc i (by omega)
  obtain ⟨j, hj, hne, hbefore⟩ := first_mismatch _ _ h2
  have hja : j < actual.length := by omega
  have hje : j < expected.length := by omega
  refine (array_assert_fail_at actual expected size M j actual[j] expected[j] (by omega)
    ?_ (List.getElem?_eq_getElem hja) (List.getElem?_eq_getElem hje) ?_).2
  · intro k hk
    have hka : k < actual.length := by omega
    refine ⟨actual[k], List.getElem?_eq_getElem hka, ?_⟩
    rw [← hbefore k hk, List.getElem?_eq_getElem hka]
  · intro hc
    apply hne
    rw [List.getElem?_eq_getElem hja, List.getElem?_eq_getElem hje, hc]

theorem copy_array_loop_spec (src : List Int) :
    ∀ (n i : Nat) (dest : List Int), i + n ≤ src.length → i + n ≤ dest.length →
      ∃ d, copy_array_loop src n i dest = some d ∧ d.length = dest.length ∧
        (∀ k, i ≤ k → k < i + n → d[k]? = src[k]?) ∧ (∀ k, k < i → d[k]? = dest[k]?) := by
  intro n
  induction n with
  | zero =>
    intro i dest _ _
    exact ⟨dest, rfl, rfl, fun k h1 h2 => by omega, fun k _ => rfl⟩
  | succ n ih =>
    intro i dest hs hd
    have his : i < src.length := by omega
    have hid : i < dest.length := by omega
    obtain ⟨d, hd1, hd2, hd3, hd4⟩ := ih (i + 1) (dest.set i src[i])
      (by omega) (by rw [List.length_set]; omega)
    refine ⟨d, ?_, ?_, ?_, ?_⟩
    · simp [copy_array_loop, List.getElem?_eq_getElem his, hid, hd1]
    · rw [hd2, List.length_set]
    · intro k hk1 hk2
      by_cases hki : k = i
      · subst hki
        rw [hd4 k (by omega), List.getElem?_set, if_pos rfl, if_pos hid,
          List.getElem?_eq_getElem his]
      · exact hd3 k (by omega) (by omega)
    · intro k hk
      rw [hd4 k (by omega), List.getElem?_set_ne (by omega)]

theorem float_diff_eq_abs (a e : ℚ) :
    (if a - e < 0 then -(a - e) else a - e) = |a - e| := by
  split
  · next h => rw [abs_of_neg h]
  · next h => rw [abs_of_nonneg (not_lt.mp h)]

theorem exec_of_holds (fmt_f : ℚ → String) (a : Assertion) (hb : a.InBounds) (h : a.Holds) :
    a.exec fmt_f = some ⟨[⟨.stdout, "PASS: " ++ a.message ++ "\n"⟩], .next⟩ := by
  cases a with
  | assert c m =>
    simp only [Assertion.Holds] at h
    simp [Assertion.exec, Assertion.message, TEST_ASSERT, h]
  | eq x y m =>
    simp only [Assertion.Holds] at h
    simp [Assertion.exec, Assertion.message, TEST_ASSERT_EQ, h]
  | str_eq x y m =>
    simp only [Assertion.Holds] at h
    simp [Assertion.exec, Assertion.message, TEST_ASSERT_STR_EQ, strcmp, h]
  | not_null p m =>
    simp only [Assertion.Holds] at h
    simp [Assertion.exec, Assertion.message, TEST_ASSERT_NOT_NULL, h]
  | null p m =>
    simp only [Assertion.Holds] at h
    simp [Assertion.exec, Assertion.message, TEST_ASSERT_NULL, h]
  | array_eq x y n m =>
    simp only [Assertion.Holds] at h
    simp only [Assertion.InBounds] at hb
    simp only [Assertion.exec, Assertion.message]
    exact array_assert_pass x y n m hb.1 hb.2 h
  | float_eq x y eps m =>
    simp only [Assertion.Holds] at h
    simp only [Assertion.exec, Assertion.message, TEST_ASSERT_FLOAT_EQ, float_diff_eq_abs]
    simp [not_lt.mpr h]
  | in_range v lo hi m =>
    simp only [Assertion.Holds] at h
    simp [Assertion.exec, Assertion.message, TEST_ASSERT_IN_RANGE, not_lt.mpr h.1,
      not_lt.mpr h.2]

theorem unit_all_pass (fmt_f : ℚ → String) :
    ∀ body : List Assertion, (∀ a ∈ body, a.InBounds ∧ a.Holds) →
      unit_of_assertions fmt_f body =
        some ⟨body.map fun a => ⟨.stdout, "PASS: " ++ a.message ++ "\n"⟩, .returned 1⟩ := by
  intro body
  induction body with
  | nil => intro _; rfl
  | cons a rest ih =>
    intro h
    have ha := h a (List.mem_cons_self a rest)
    have hrest := ih fun b hb => h b (List.mem_cons_of_mem a hb)
    simp [unit_of_assertions, exec_of_holds fmt_f a ha.1 ha.2, hrest]

theorem run_tests_counters :
    ∀ (units : List (String × Call)) (c : Counters),
      (∀ u ∈ units, ∃ r, u.2.outcome = .returned r) →
      (run_tests units c).1.ctl = .next ∧
      (run_tests units c).2 =
        ⟨c.tests_passed + ((units.length : Int) - (failed_units units : Int)),
          c.tests_failed + (failed_units units : Int),
          c.total_tests + (units.length : Int)⟩ := by
  intro units
  induction units with
  | nil =>
    intro c _
    simp [run_tests, failed_units]
  | cons u rest ih =>
    intro c h
    obtain ⟨name, f⟩ := u
    obtain ⟨r, hr⟩ := h (name, f) (List.mem_cons_self _ _)
    simp only at hr
    have hrest := fun c1 => ih c1 fun v hv => h v (List.mem_cons_of_mem _ hv)
    by_cases h0 : r = 0
    · subst h0
      have hc := (hrest ⟨c.tests_passed, c.tests_failed + 1, c.total_tests + 1⟩)
      simp only [run_tests, RUN_TEST, hr, failed_units, List.countP_cons, List.length_cons] at *
      simp only [bne_self_eq_false, Bool.false_eq_true, if_false, hc.1, hc.2, beq_self_eq_true,
        if_true, true_and, Counters.mk.injEq]
      push_cast
      refine ⟨?_, ?_, ?_⟩ <;> ring
    · have hc := (hrest ⟨c.tests_passed + 1, c.tests_failed, c.total_tests + 1⟩)
      have hne : (Outcome.returned r == Outcome.returned 0) = false := by
        simp [h0]
      simp only [run_tests, RUN_TEST, hr, failed_units, List.countP_cons, List.length_cons] at *
      simp only [bne_iff_ne, ne_eq, h0, not_false_eq_true, if_true, hc.1, hc.2, hne,
        Bool.false_eq_true, if_false, true_and, Counters.mk.injEq]
      push_cast
      refine ⟨?_, ?_, ?_⟩ <;> ring

theorem success_rate_eq (c : Counters) :
    success_rate c =
      some (if c.total_tests > 0 then (c.tests_passed : ℚ) / (c.total_tests : ℚ) * 100 else 0) := by
  unfold success_rate fdiv
  by_cases h : c.total_tests > 0
  · have hq : (c.total_tests : ℚ) ≠ 0 := by
      have : c.total_tests ≠ 0 := by omega
      exact_mod_cast this
    simp only [h, if_true, hq, if_false]
    congr 1
    field_simp
  · simp [h]

theorem RUN_TEST_consistent (name : String) (f : Call) (c : Counters) (h : c.Consistent) :
    (RUN_TEST name f c).2.Consistent := by
  unfold Counters.Consistent at *
  cases hf : f.outcome with
  | exited code => simpa [RUN_TEST, hf] using h
  | returned r =>
    by_cases hr : r = 0
    · simp only [RUN_TEST, hf, hr, bne_self_eq_false, Bool.false_eq_true, if_false]
      omega
    · simp only [RUN_TEST, hf, bne_iff_ne, ne_eq, hr, not_false_eq_true, if_true]
      omega

theorem run_tests_consistent :
    ∀ (units : List (String × Call)) (c : Counters), c.Consistent →
      (run_tests units c).2.Consistent := by
  intro units
  induction units with
  | nil => intro c h; simpa [run_tests] using h
  | cons u rest ih =>
    intro c h
    obtain ⟨name, f⟩ := u
    have h1 := RUN_TEST_consistent name f c h
    simp only [run_tests]
    split
    · exact ih _ h1
    · exact h1

theorem PRINT_TEST_SUMMARY_reads (fmt_1f : ℚ → String) (c : Counters) :
    ∃ s : Step, PRINT_TEST_SUMMARY fmt_1f c = some (s, c) ∧ s.ctl = .next := by
  simp only [PRINT_TEST_SUMMARY, success_rate_eq]
  exact ⟨_, rfl, rfl⟩

theorem stress_loop_counts {σ : Type} (test_code : σ → Bool × σ) :
    ∀ (n : Nat) (failures : Int) (s : σ),
      stress_loop test_code n failures s =
        (failures + ((evaluations test_code n s).count false : Int),
          state_after test_code n s) := by
  intro n
  induction n with
  | zero => intro failures s; simp [stress_loop, evaluations, state_after]
  | succ n ih =>
    intro failures s
    simp only [stress_loop, evaluations, state_after, ih, List.count_cons]
    cases h : (test_code s).1
    · simp only [Bool.not_false, if_true, beq_self_eq_true, Prod.mk.injEq, and_true]
      push_cast
      ring
    · simp

theorem sandbox_of_exit (pid : Int) (block : Step) (M : String) (code : Int)
    (h : block.ctl = .exits code) :
    (TEST_EXPECT_CRASH 0 block (.exited 0) M).ctl = .exits code ∧
    sandbox pid block M = some (TEST_EXPECT_CRASH pid block (status_of_exit code) M) := by
  have hc : (TEST_EXPECT_CRASH 0 block (.exited 0) M).ctl = .exits code := by
    simp [TEST_EXPECT_CRASH, Step.andThen, h]
  exact ⟨hc, by simp [sandbox, hc]⟩

theorem sandbox_of_next (pid : Int) (hpid : 0 < pid) (block : Step) (M : String)
    (h : block.ctl = .next) :
    (TEST_EXPECT_CRASH 0 block (.exited 0) M).ctl = .exits 0 ∧
    sandbox pid block M =
      some ⟨[⟨.stderr, "FAIL: " ++ M ++ " (expected crash but didn't crash)\n"⟩], .returns 0⟩ := by
  have hc : (TEST_EXPECT_CRASH 0 block (.exited 0) M).ctl = .exits 0 := by
    simp [TEST_EXPECT_CRASH, Step.andThen, h]
  have h0 : pid ≠ 0 := by omega
  refine ⟨hc, ?_⟩
  simp only [sandbox, hc]
  simp [TEST_EXPECT_CRASH, h0, hpid, status_of_exit, WIFEXITED, WEXITSTATUS]

theorem parent_pass_of_failure_exit (pid : Int) (hpid : 0 < pid) (block : Step) (M : String) :
    TEST_EXPECT_CRASH pid block (status_of_exit EXIT_FAILURE) M =
      ⟨[⟨.stdout, "PASS: " ++ M ++ " (crashed as expected)\n"⟩], .next⟩ := by
  have h0 : pid ≠ 0 := by omega
  simp [TEST_EXPECT_CRASH, h0, hpid, status_of_exit, EXIT_FAILURE, WIFEXITED, WEXITSTATUS]

theorem divide_by_zero_eq (file : String) :
    divide_by_zero file =
      some ⟨[⟨.stderr, "ERROR: Division by zero (" ++ file ++ ":" ++ fmt_d 36 ++ ")\n"⟩],
        .exits EXIT_FAILURE⟩ := by
  simp [divide_by_zero, CHECK, Step.bind]

theorem access_null_pointer_eq (file : String) :
    access_null_pointer file =
      some ⟨[⟨.stderr, "ERROR: NULL POINTER DETECTED: ptr AT " ++ file ++ ":" ++ fmt_d 42 ++
        "\n"⟩], .exits EXIT_FAILURE⟩ := by
  simp [access_null_pointer, CHECK_PTR, Step.bind, NULL]

theorem parent_pass_of_crash (pid : Int) (hpid : 0 < pid) (block : Step) (status : WaitStatus)
    (hcrash : status ≠ .exited 0) (M : String) :
    TEST_EXPECT_CRASH pid block status M =
      ⟨[⟨.stdout, "PASS: " ++ M ++ " (crashed as expected)\n"⟩], .next⟩ := by
  have h0 : pid ≠ 0 := by omega
  cases status with
  | exited code =>
    have hc : code ≠ 0 := fun h => hcrash (by rw [h])
    simp [TEST_EXPECT_CRASH, h0, hpid, WIFEXITED, WEXITSTATUS, hc]
  | signaled sig => simp [TEST_EXPECT_CRASH, h0, hpid, WIFEXITED]

theorem main_returns (fmt_f fmt_1f : ℚ → String) (t : ℚ) (units : List (String × Call))
    (h : (run_tests units Counters.init).1.ctl = .next) :
    ∃ out : List Line, main fmt_f fmt_1f t units =
      some ⟨out, .returned (main_return (run_tests units Counters.init).2)⟩ := by
  obtain ⟨s, hs, _⟩ := PRINT_TEST_SUMMARY_reads fmt_1f (run_tests units Counters.init).2
  simp only [main, h, hs]
  exact ⟨_, rfl⟩

theorem failed_units_eq_zero_iff (units : List (String × Call)) :
    failed_units units = 0 ↔ ∀ u ∈ units, u.2.outcome ≠ .returned 0 := by
  simp [failed_units, List.countP_eq_zero]

theorem unit_of_steps_skip_next (s : Step) (hs : s.ctl = .next) (post : List Step) :
    ∀ pre : List Step,
      (unit_of_steps (pre ++ s :: post)).outcome = (unit_of_steps (pre ++ post)).outcome := by
  intro pre
  induction pre with
  | nil => simp [unit_of_steps, hs]
  | cons p rest ih =>
    simp only [List.cons_append, unit_of_steps]
    cases p.ctl <;> simp [ih]

theorem unit_of_steps_exits (s : Step) (code : Int) (hs : s.ctl = .exits code)
    (post : List Step) :
    ∀ pre : List Step, (∀ p ∈ pre, p.ctl = .next) →
      (unit_of_steps (pre ++ s :: post)).outcome = .exited code := by
  intro pre
  induction pre with
  | nil => intro _; simp [unit_of_steps, hs]
  | cons p rest ih =>
    intro h
    have hp := h p (List.mem_cons_self p rest)
    simp only [List.cons_append, unit_of_steps, hp]
    exact ih fun q hq => h q (List.mem_cons_of_mem p hq)

theorem RUN_TEST_counters_of_outcome (name : String) (u v : Call) (c : Counters)
    (h : u.outcome = v.outcome) : (RUN_TEST name u c).2 = (RUN_TEST name v c).2 := by
  unfold RUN_TEST
  rw [h]
  cases v.outcome with
  | returned r => by_cases hr : r = 0 <;> simp [hr]
  | exited code => rfl

theorem fatal_exec_of_guard_fails (file : String) (line : Int) (k : FatalCheck)
    (h : ¬ k.GuardHolds) :
    ∃ text : String,
      k.exec file line = ⟨[⟨.stderr, "ERROR: " ++ text⟩], .exits EXIT_FAILURE⟩ := by
  cases k with
  | check c msg =>
    simp only [FatalCheck.GuardHolds] at h
    exact ⟨msg ++ " (" ++ file ++ ":" ++ fmt_d line ++ ")\n", by
      simp [FatalCheck.exec, CHECK, h, String.append_assoc]⟩
  | check_ptr p t =>
    simp only [FatalCheck.GuardHolds, not_not] at h
    have hlit : ("ERROR: NULL POINTER DETECTED: " : String) =
        "ERROR: " ++ "NULL POINTER DETECTED: " := by decide
    exact ⟨"NULL POINTER DETECTED: " ++ t ++ " AT " ++ file ++ ":" ++ fmt_d line ++ "\n", by
      simp only [FatalCheck.exec, CHECK_PTR, h, beq_self_eq_true, if_true, hlit,
        String.append_assoc]⟩
  | check_alloc p msg =>
    simp only [FatalCheck.GuardHolds, not_not] at h
    have hlit : ("ERROR: MEMORY ALLOCATION FAILED: " : String) =
        "ERROR: " ++ "MEMORY ALLOCATION FAILED: " := by decide
    exact ⟨"MEMORY ALLOCATION FAILED: " ++ msg ++ " at " ++ file ++ ":" ++ fmt_d line ++ "\n", by
      simp only [FatalCheck.exec, CHECK_ALLOC, h, beq_self_eq_true, if_true, hlit,
        String.append_assoc]⟩
  | check_errno call msg e =>
    simp only [FatalCheck.GuardHolds, not_not] at h
    exact ⟨msg ++ " failed: " ++ e ++ " (" ++ file ++ ":" ++ fmt_d line ++ ")\n", by
      simp [FatalCheck.exec, CHECK_ERRNO, h, String.append_assoc]⟩
  | error_check call t expected =>
    simp only [FatalCheck.GuardHolds] at h
    have hlit : ("ERROR: call '" : String) = "ERROR: " ++ "call '" := by decide
    exact ⟨"call '" ++ t ++ "' returned " ++ fmt_d call ++ ", expected " ++ fmt_d expected ++
        "\n", by
      simp only [FatalCheck.exec, ERROR_CHECK, bne_iff_ne, ne_eq, h, not_false_eq_true, if_true,
        hlit, String.append_assoc]⟩
  | check_bounds i n msg =>
    simp only [FatalCheck.GuardHolds] at h
    have h2 : i < 0 ∨ n ≤ i := by omega
    have hlit : ("ERROR: BOUNDS CHECK FAILED: " : String) =
        "ERROR: " ++ "BOUNDS CHECK FAILED: " := by decide
    exact ⟨"BOUNDS CHECK FAILED: " ++ msg ++ " - index " ++ fmt_d (to_int i) ++
        " out of bounds [0, " ++ fmt_d (to_int n) ++ ") at " ++ file ++ ":" ++ fmt_d line ++
        "\n", by
      simp only [FatalCheck.exec, CHECK_BOUNDS, ge_iff_le, Bool.or_eq_true, decide_eq_true_eq,
        h2, if_true, hlit, String.append_assoc]⟩
  | assert_unreachable msg =>
    have hlit : ("ERROR: UNREACHABLE CODE REACHED: " : String) =
        "ERROR: " ++ "UNREACHABLE CODE REACHED: " := by decide
    exact ⟨"UNREACHABLE CODE REACHED: " ++ msg ++ " at " ++ file ++ ":" ++ fmt_d line ++ "\n", by
      simp only [FatalCheck.exec, ASSERT_UNREACHABLE, hlit, String.append_assoc]⟩

theorem fatal_exec_of_guard_holds (file : String) (line : Int) (k : FatalCheck)
    (h : k.GuardHolds) : k.exec file line = ⟨[], .next⟩ := by
  cases k with
  | check c msg =>
    simp only [FatalCheck.GuardHolds] at h
    simp [FatalCheck.exec, CHECK, h]
  | check_ptr p t =>
    simp only [FatalCheck.GuardHolds] at h
    simp [FatalCheck.exec, CHECK_PTR, h]
  | check_alloc p msg =>
    simp only [FatalCheck.GuardHolds] at h
    simp [FatalCheck.exec, CHECK_ALLOC, h]
  | check_errno call msg e =>
    simp only [FatalCheck.GuardHolds] at h
    simp [FatalCheck.exec, CHECK_ERRNO, h]
  | error_check call t expected =>
    simp only [FatalCheck.GuardHolds] at h
    simp [FatalCheck.exec, ERROR_CHECK, h]
  | check_bounds i n msg =>
    simp only [FatalCheck.GuardHolds] at h
    simp [FatalCheck.exec, CHECK_BOUNDS, not_lt.mpr h.1, h.2]
  | assert_unreachable msg => exact absurd h (by simp [FatalCheck.GuardHolds])

theorem CHECK_MEMORY_LEAKS_next (l : Ledger) :
    (CHECK_MEMORY_LEAKS l).1.ctl = .next ∧ (CHECK_MEMORY_LEAKS l).2 = l := by
  unfold CHECK_MEMORY_LEAKS
  split <;> exact ⟨rfl, rfl⟩

theorem WARN_next (condition : Bool) (msg file : String) (line : Int) :
    (WARN condition msg file line).ctl = .next := by
  unfold WARN
  split <;> rfl

theorem run_ledger_counts :
    ∀ (ops : List LedgerOp) (l : Ledger), (∀ op ∈ ops, op.ptr ≠ NULL) →
      run_ledger ops l =
        ⟨l._malloc_count + (ops.countP (fun op => op.is_malloc) : Int),
          l._free_count + (ops.countP (fun op => !op.is_malloc) : Int)⟩ := by
  intro ops
  induction ops with
  | nil => intro l _; simp [run_ledger]
  | cons op rest ih =>
    intro l h
    have hop := h op (List.mem_cons_self op rest)
    have hrest := ih (op.apply l) fun o ho => h o (List.mem_cons_of_mem op ho)
    cases op with
    | track_malloc p =>
      simp only [LedgerOp.ptr] at hop
      have happ : (LedgerOp.track_malloc p).apply l = ⟨l._malloc_count + 1, l._free_count⟩ := by
        simp [LedgerOp.apply, TRACK_MALLOC, hop]
      rw [run_ledger, hrest, happ, List.countP_cons, List.countP_cons]
      simp only [LedgerOp.is_malloc, Bool.not_true, Bool.false_eq_true, if_true, if_false,
        Nat.cast_add, Nat.cast_one, Nat.cast_zero, Ledger.mk.injEq]
      constructor <;> ring
    | track_free p =>
      simp only [LedgerOp.ptr] at hop
      have happ : (LedgerOp.track_free p).apply l = ⟨l._malloc_count, l._free_count + 1⟩ := by
        simp [LedgerOp.apply, TRACK_FREE, hop]
      rw [run_ledger, hrest, happ, List.countP_cons, List.countP_cons]
      simp only [LedgerOp.is_malloc, Bool.not_false, Bool.false_eq_true, if_true, if_false,
        Nat.cast_add, Nat.cast_one, Nat.cast_zero, Ledger.mk.injEq]
      constructor <;> ring

theorem RANDOM_INT_eq (r min max : Int) (hle : min ≤ max) (hmin : INT_MIN ≤ min)
    (hmax : max ≤ INT_MAX) (hrep : max - min + 1 ≤ INT_MAX) (hr : 0 ≤ r) :
    RANDOM_INT r min max = some (r % (max - min + 1) + min) ∧
    min ≤ r % (max - min + 1) + min ∧ r % (max - min + 1) + min ≤ max := by
  have hn : 0 < max - min + 1 := by omega
  have h1 : 0 ≤ r % (max - min + 1) := Int.emod_nonneg r (by omega)
  have h2 : r % (max - min + 1) < max - min + 1 := Int.emod_lt_of_pos r hn
  have hmin2 : (-2147483648 : Int) ≤ min := hmin
  have hmax2 : max ≤ (2147483647 : Int) := hmax
  have hrep2 : max - min + 1 ≤ (2147483647 : Int) := hrep
  have hd : int_result (max - min) = some (max - min) := by
    unfold int_result INT_MIN INT_MAX
    rw [if_pos]
    constructor <;> omega
  have hn1 : int_result (max - min + 1) = some (max - min + 1) := by
    unfold int_result INT_MIN INT_MAX
    rw [if_pos]
    constructor <;> omega
  have hne : max - min + 1 ≠ 0 := by omega
  have hne1 : ¬ (r = INT_MIN ∧ max - min + 1 = -1) := by
    intro h
    omega
  have hres : int_result (r % (max - min + 1) + min) = some (r % (max - min + 1) + min) := by
    unfold int_result INT_MIN INT_MAX
    rw [if_pos]
    constructor <;> omega
  refine ⟨?_, by omega, by omega⟩
  simp only [RANDOM_INT, hd, hn1, hne, hne1, if_false, Int.tmod_eq_emod hr (le_of_lt hn), hres]

theorem double_sub_eq_nan_iff (a e : Double) :
    Double.sub a e = .nan ↔
      a = .nan ∨ e = .nan ∨ (a = .pinf ∧ e = .pinf) ∨ (a = .ninf ∧ e = .ninf) := by
  cases a <;> cases e <;> simp [Double.sub]

theorem float_eq_double_fail_of_neg (fmt_f : Double → String) (actual expected epsilon : Double)
    (M : String) (hd : Double.sub actual expected ≠ .nan)
    (heps : Double.lt epsilon (.finite 0) = true) :
    (TEST_ASSERT_FLOAT_EQ_double fmt_f actual expected epsilon M).ctl = .returns 0 := by
  unfold TEST_ASSERT_FLOAT_EQ_double
  generalize Double.sub actual expected = d at hd
  cases d with
  | nan => exact absurd rfl hd
  | pinf =>
    cases epsilon <;> simp [Double.lt] at heps ⊢
  | ninf =>
    cases epsilon <;> simp [Double.lt, Double.neg] at heps ⊢
  | finite x =>
    cases epsilon with
    | nan => simp [Double.lt] at heps
    | pinf => simp [Double.lt] at heps
    | ninf =>
      by_cases hx : x < 0 <;> simp [Double.lt, Double.neg, hx]
    | finite r =>
      simp only [Double.lt, decide_eq_true_eq] at heps
      by_cases hx : x < 0
      · have : r < -x := by linarith
        simp [Double.lt, Double.neg, hx, this]
      · have : r < x := by linarith
        simp [Double.lt, Double.neg, hx, this]

theorem float_eq_double_pass_of_nan (fmt_f : Double → String) (actual expected epsilon : Double)
    (M : String) (hd : Double.sub actual expected = .nan) :
    TEST_ASSERT_FLOAT_EQ_double fmt_f actual expected epsilon M =
      ⟨[⟨.stdout, "PASS: " ++ M ++ "\n"⟩], .next⟩ := by
  unfold TEST_ASSERT_FLOAT_EQ_double
  rw [hd]
  cases epsilon <;> simp [Double.lt]

theorem float_eq_double_zero_iff (fmt_f : Double → String) (actual expected : Double)
    (M : String) (hd : Double.sub actual expected ≠ .nan) :
    TEST_ASSERT_FLOAT_EQ_double fmt_f actual expected (.finite 0) M =
      ⟨[⟨.stdout, "PASS: " ++ M ++ "\n"⟩], .next⟩ ↔ Double.eq actual expected = true := by
  cases actual with
  | nan => exact absurd (by simp [Double.sub]) hd
  | pinf =>
    cases expected <;>
      simp [TEST_ASSERT_FLOAT_EQ_double, Double.sub, Double.lt, Double.neg, Double.eq] at hd ⊢
  | ninf =>
    cases expected <;>
      simp [TEST_ASSERT_FLOAT_EQ_double, Double.sub, Double.lt, Double.neg, Double.eq] at hd ⊢
  | finite p =>
    cases expected with
    | nan => exact absurd (by simp [Double.sub]) hd
    | pinf => simp [TEST_ASSERT_FLOAT_EQ_double, Double.sub, Double.lt, Double.neg, Double.eq]
    | ninf => simp [TEST_ASSERT_FLOAT_EQ_double, Double.sub, Double.lt, Double.neg, Double.eq]
    | finite q =>
      simp only [TEST_ASSERT_FLOAT_EQ_double, Double.sub, Double.lt, Double.eq,
        decide_eq_true_eq]
      by_cases hlt : p - q < 0
      · have h1 : (0 : ℚ) < -(p - q) := by linarith
        have h2 : p ≠ q := by
          intro h
          rw [h, sub_self] at hlt
          exact lt_irrefl _ hlt
        have h3 : p < q := by linarith
        simp [hlt, Double.neg, Double.lt, h1, h2, h3]
      · by_cases heq : p = q
        · subst heq
          simp [Double.lt]
        · have h1 : (0 : ℚ) < p - q := by
            have : p - q ≠ 0 := sub_ne_zero.mpr heq
            exact lt_of_le_of_ne (not_lt.mp hlt) (Ne.symm this)
          simp [hlt, Double.lt, h1, heq]

theorem float_eq_double_finite (fmt_f : Double → String) (a e eps : ℚ) (M : String) :
    (TEST_ASSERT_FLOAT_EQ_double fmt_f (.finite a) (.finite e) (.finite eps) M).ctl =
      (TEST_ASSERT_FLOAT_EQ (fun q => fmt_f (.finite q)) a e eps M).ctl := by
  simp only [TEST_ASSERT_FLOAT_EQ_double, TEST_ASSERT_FLOAT_EQ, Double.sub, Double.lt,
    decide_eq_true_eq]
  by_cases hlt : a - e < 0
  · simp only [hlt, if_true, Double.neg, Double.lt, decide_eq_true_eq, gt_iff_lt]
  · simp only [hlt, if_false, Double.lt, decide_eq_true_eq, gt_iff_lt]

/-! ## The claims -/

/-- C1: classification of the child's termination status by `TEST_EXPECT_CRASH`
in the parent (`pid > 0`): a normal exit with code 0 makes the unit return 0
with a line containing `(expected crash but didn't crash)`; a normal exit with
a non-zero code, or a death by signal, prints the PASS line and the unit
continues; when `fork` fails (`pid < 0`) the unit returns 0 with the distinct
`fork() failed` line, whatever the block and the status are. -/
theorem TEST_EXPECT_CRASH_classifies (pid : Int) (test_code : Step) (M : String) :
    (0 < pid →
      (TEST_EXPECT_CRASH pid test_code (.exited 0) M =
          ⟨[⟨.stderr, "FAIL: " ++ M ++ " (expected crash but didn't crash)\n"⟩], .returns 0⟩ ∧
        Contains ("FAIL: " ++ M ++ " (expected crash but didn't crash)\n")
          "(expected crash but didn't crash)") ∧
      (∀ code : Nat, code ≠ 0 →
        TEST_EXPECT_CRASH pid test_code (.exited code) M =
          ⟨[⟨.stdout, "PASS: " ++ M ++ " (crashed as expected)\n"⟩], .next⟩) ∧
      (∀ sig : Nat,
        TEST_EXPECT_CRASH pid test_code (.signaled sig) M =
          ⟨[⟨.stdout, "PASS: " ++ M ++ " (crashed as expected)\n"⟩], .next⟩)) ∧
    (pid < 0 → ∀ status : WaitStatus,
      TEST_EXPECT_CRASH pid test_code status M =
          ⟨[⟨.stderr, "FAIL: fork() failed for crash test\n"⟩], .returns 0⟩ ∧
      "FAIL: fork() failed for crash test\n" ≠
          "FAIL: " ++ M ++ " (expected crash but didn't crash)\n") := by
  refine ⟨fun hpos => ⟨⟨?_, ?_⟩, ?_, ?_⟩, fun hneg status => ⟨?_, fork_line_ne M⟩⟩
  · have h0 : pid ≠ 0 := by omega
    simp [TEST_EXPECT_CRASH, h0, hpos, WIFEXITED, WEXITSTATUS]
  · exact ⟨"FAIL: " ++ M ++ " ", "\n", by simp [String.append_assoc]⟩
  · intro code hcode
    have h0 : pid ≠ 0 := by omega
    simp [TEST_EXPECT_CRASH, h0, hpos, WIFEXITED, WEXITSTATUS, hcode]
  · intro sig
    have h0 : pid ≠ 0 := by omega
    simp [TEST_EXPECT_CRASH, h0, hpos, WIFEXITED]
  · have h0 : pid ≠ 0 := by omega
    have h1 : ¬ pid > 0 := by omega
    simp [TEST_EXPECT_CRASH, h0, h1]

/-- Witness for C1: a parent whose child has pid 4242, and a failed fork
(pid -1), the block being one that would have ended the child with code 3. -/
theorem TEST_EXPECT_CRASH_classifies_witness :
    ((0 : Int) < 4242 ∧
      TEST_EXPECT_CRASH 4242 ⟨[], .exits 3⟩ (.exited 0) "boom" =
        ⟨[⟨.stderr, "FAIL: boom (expected crash but didn't crash)\n"⟩], .returns 0⟩ ∧
      TEST_EXPECT_CRASH 4242 ⟨[], .exits 3⟩ (.exited 1) "boom" =
        ⟨[⟨.stdout, "PASS: boom (crashed as expected)\n"⟩], .next⟩ ∧
      TEST_EXPECT_CRASH 4242 ⟨[], .exits 3⟩ (.signaled 11) "boom" =
        ⟨[⟨.stdout, "PASS: boom (crashed as expected)\n"⟩], .next⟩) ∧
    ((-1 : Int) < 0 ∧
      TEST_EXPECT_CRASH (-1) ⟨[], .exits 3⟩ (.signaled 11) "boom" =
        ⟨[⟨.stderr, "FAIL: fork() failed for crash test\n"⟩], .returns 0⟩) :=
  have hp : (0 : Int) < 4242 := by decide
  have hn : (-1 : Int) < 0 := by decide
  have h := (TEST_EXPECT_CRASH_classifies 4242 ⟨[], .exits 3⟩ "boom").1 hp
  have g := (TEST_EXPECT_CRASH_classifies (-1) ⟨[], .exits 3⟩ "boom").2 hn
  ⟨⟨hp, h.1.1, h.2.1 1 (by decide), h.2.2 11⟩, hn, (g (.signaled 11)).1⟩

/-- C2: `TEST_ASSERT(P, M)` with P true prints exactly the line `PASS: M` and
the rest of the unit runs with its outcome unchanged; with P false it prints
the line `FAIL: M` and the enclosing unit returns 0, whatever follows. -/
theorem TEST_ASSERT_spec (M : String) (rest : Step) :
    TEST_ASSERT true M = ⟨[⟨.stdout, "PASS: " ++ M ++ "\n"⟩], .next⟩ ∧
    (TEST_ASSERT true M).andThen rest =
      ⟨⟨.stdout, "PASS: " ++ M ++ "\n"⟩ :: rest.out, rest.ctl⟩ ∧
    TEST_ASSERT false M = ⟨[⟨.stderr, "FAIL: " ++ M ++ "\n"⟩], .returns 0⟩ ∧
    (TEST_ASSERT false M).andThen rest =
      ⟨[⟨.stderr, "FAIL: " ++ M ++ "\n"⟩], .returns 0⟩ := by
  refine ⟨rfl, rfl, rfl, rfl⟩

/-- C4: from zeroed counters, after `RUN_TEST` of k units that come back to the
runner, f of them with 0, `total_tests == k`, `tests_failed == f`,
`tests_passed == k - f`, and the success rate printed by `PRINT_TEST_SUMMARY`
is `(k - f) / k * 100` for `k > 0` and `0.0` for `k == 0`, no division by zero
being reached. -/
theorem run_tests_summary (fmt_1f : ℚ → String) (units : List (String × Call))
    (hret : ∀ u ∈ units, ∃ r, u.2.outcome = .returned r) :
    (run_tests units Counters.init).1.ctl = .next ∧
    (run_tests units Counters.init).2.total_tests = (units.length : Int) ∧
    (run_tests units Counters.init).2.tests_failed = (failed_units units : Int) ∧
    (run_tests units Counters.init).2.tests_passed =
      (units.length : Int) - (failed_units units : Int) ∧
    success_rate (run_tests units Counters.init).2 =
      some (if units.length > 0 then
        ((units.length : ℚ) - (failed_units units : ℚ)) / (units.length : ℚ) * 100 else 0) ∧
    ∃ s : Step,
      PRINT_TEST_SUMMARY fmt_1f (run_tests units Counters.init).2 =
        some (s, (run_tests units Counters.init).2) ∧
      s.ctl = .next ∧
      (⟨.stdout, "Success rate: " ++ fmt_1f (if units.length > 0 then
        ((units.length : ℚ) - (failed_units units : ℚ)) / (units.length : ℚ) * 100 else 0) ++
        "%\n"⟩ : Line) ∈ s.out := by
  obtain ⟨h1, h2⟩ := run_tests_counters units Counters.init hret
  have hrate : success_rate (run_tests units Counters.init).2 =
      some (if units.length > 0 then
        ((units.length : ℚ) - (failed_units units : ℚ)) / (units.length : ℚ) * 100 else 0) := by
    rw [success_rate_eq, h2]
    simp only [Counters.init, zero_add]
    by_cases hk : units.length > 0
    · have hk2 : (units.length : Int) > 0 := by exact_mod_cast hk
      simp only [hk, hk2, if_true]
      push_cast
      rfl
    · have hk2 : ¬ (units.length : Int) > 0 := by omega
      simp only [hk, hk2, if_false]
  refine ⟨h1, ?_, ?_, ?_, hrate, ?_⟩
  · rw [h2]; simp [Counters.init]
  · rw [h2]; simp [Counters.init]
  · rw [h2]; simp [Counters.init]
  · simp only [PRINT_TEST_SUMMARY, hrate]
    exact ⟨_, rfl, rfl, by simp⟩

/-- Witness for C4: three units, the second one returning 0. -/
theorem run_tests_summary_witness :
    (∀ u ∈ [("a", (⟨[], .returned 1⟩ : Call)), ("b", ⟨[], .returned 0⟩), ("c", ⟨[], .returned 1⟩)],
      ∃ r, u.2.outcome = .returned r) ∧
    (run_tests [("a", (⟨[], .returned 1⟩ : Call)), ("b", ⟨[], .returned 0⟩),
      ("c", ⟨[], .returned 1⟩)] Counters.init).2.total_tests = 3 ∧
    (run_tests [("a", (⟨[], .returned 1⟩ : Call)), ("b", ⟨[], .returned 0⟩),
      ("c", ⟨[], .returned 1⟩)] Counters.init).2.tests_failed = 1 ∧
    (run_tests [("a", (⟨[], .returned 1⟩ : Call)), ("b", ⟨[], .returned 0⟩),
      ("c", ⟨[], .returned 1⟩)] Counters.init).2.tests_passed = 3 - 1 :=
  have h : ∀ u ∈ [("a", (⟨[], .returned 1⟩ : Call)), ("b", ⟨[], .returned 0⟩),
      ("c", ⟨[], .returned 1⟩)], ∃ r, u.2.outcome = .returned r := by
    simp
  have t := run_tests_summary (fun _ => "") _ h
  ⟨h, t.2.1, t.2.2.1, t.2.2.2.1⟩

/-- C5: `total_tests == tests_passed + tests_failed` holds for the initial
counters and is preserved by `RUN_TEST` of any unit, by any sequence of
`RUN_TEST`, and by `PRINT_TEST_SUMMARY` (which gives the counters back
unchanged); a `RUN_TEST` whose unit comes back adds one to `total_tests` and
one to exactly one of `tests_passed` / `tests_failed`. -/
theorem counters_consistent :
    Counters.init.Consistent ∧
    (∀ (name : String) (f : Call) (c : Counters), c.Consistent →
      (RUN_TEST name f c).2.Consistent) ∧
    (∀ (units : List (String × Call)) (c : Counters), c.Consistent →
      (run_tests units c).2.Consistent) ∧
    (∀ (fmt_1f : ℚ → String) (c : Counters),
      ∃ s : Step, PRINT_TEST_SUMMARY fmt_1f c = some (s, c) ∧ s.ctl = .next) ∧
    (∀ (name : String) (out : List Line) (r : Int) (c : Counters),
      (RUN_TEST name ⟨out, .returned r⟩ c).2.total_tests = c.total_tests + 1 ∧
      (((RUN_TEST name ⟨out, .returned r⟩ c).2.tests_passed = c.tests_passed + 1 ∧
          (RUN_TEST name ⟨out, .returned r⟩ c).2.tests_failed = c.tests_failed) ∨
        ((RUN_TEST name ⟨out, .returned r⟩ c).2.tests_passed = c.tests_passed ∧
          (RUN_TEST name ⟨out, .returned r⟩ c).2.tests_failed = c.tests_failed + 1))) := by
  refine ⟨rfl, RUN_TEST_consistent, run_tests_consistent, PRINT_TEST_SUMMARY_reads, ?_⟩
  intro name out r c
  by_cases hr : r = 0 <;> simp [RUN_TEST, hr]

/-- Witness for C5: a failing unit run from the counters (2, 1, 3). -/
theorem counters_consistent_witness :
    (⟨2, 1, 3⟩ : Counters).Consistent ∧
    (RUN_TEST "t" ⟨[], .returned 0⟩ ⟨2, 1, 3⟩).2.Consistent :=
  have h : (⟨2, 1, 3⟩ : Counters).Consistent := rfl
  ⟨h, counters_consistent.2.1 "t" ⟨[], .returned 0⟩ ⟨2, 1, 3⟩ h⟩

/-- C6: `TEST_ASSERT_EQ(actual, expected, M)` prints `PASS: M` and continues
exactly when `actual == expected`; otherwise the unit returns 0 and, for values
of the type `int` the macro prints them with, the FAIL line carries
`Expected: <expected>, Got: <actual>`. -/
theorem TEST_ASSERT_EQ_spec (actual expected : Int) (M : String) :
    (TEST_ASSERT_EQ actual expected M = ⟨[⟨.stdout, "PASS: " ++ M ++ "\n"⟩], .next⟩ ↔
      actual = expected) ∧
    ((TEST_ASSERT_EQ actual expected M).ctl = .returns 0 ↔ actual ≠ expected) ∧
    (actual ≠ expected → INT_MIN ≤ actual ∧ actual ≤ INT_MAX →
      INT_MIN ≤ expected ∧ expected ≤ INT_MAX →
      TEST_ASSERT_EQ actual expected M =
        ⟨[⟨.stderr, "FAIL: " ++ M ++ " - Expected: " ++ toString expected ++ ", Got: " ++
          toString actual ++ "\n"⟩], .returns 0⟩ ∧
      Contains ("FAIL: " ++ M ++ " - Expected: " ++ toString expected ++ ", Got: " ++
          toString actual ++ "\n")
        ("Expected: " ++ toString expected ++ ", Got: " ++ toString actual)) := by
  refine ⟨?_, ?_, fun hne ha he => ⟨?_, ?_⟩⟩
  · by_cases h : actual = expected
    · simp [TEST_ASSERT_EQ, h]
    · simp [TEST_ASSERT_EQ, h]
  · by_cases h : actual = expected
    · simp [TEST_ASSERT_EQ, h]
    · simp [TEST_ASSERT_EQ, h]
  · have ha2 : to_int actual = actual := to_int_of_int_range actual ha.1 ha.2
    have he2 : to_int expected = expected := to_int_of_int_range expected he.1 he.2
    simp [TEST_ASSERT_EQ, hne, ha2, he2, fmt_d]
  · have hlit : (" - Expected: " : String) = " - " ++ "Expected: " := by decide
    exact ⟨"FAIL: " ++ M ++ " - ", "\n", by
      simp only [String.append_assoc]
      rw [← String.append_assoc " - " "Expected: ", ← hlit]⟩

/-- Witness for C6: `4 * 5` against 21, and against 20. -/
theorem TEST_ASSERT_EQ_spec_witness :
    (4 * 5 : Int) ≠ 21 ∧ (INT_MIN ≤ 4 * 5 ∧ 4 * 5 ≤ INT_MAX) ∧ (INT_MIN ≤ 21 ∧ 21 ≤ INT_MAX) ∧
    TEST_ASSERT_EQ (4 * 5) 21 "m" =
      ⟨[⟨.stderr, "FAIL: m - Expected: 21, Got: 20\n"⟩], .returns 0⟩ ∧
    TEST_ASSERT_EQ (4 * 5) 20 "m" = ⟨[⟨.stdout, "PASS: m\n"⟩], .next⟩ :=
  have h1 : INT_MIN ≤ 4 * 5 ∧ 4 * 5 ≤ INT_MAX := by decide
  have h2 : INT_MIN ≤ 21 ∧ 21 ≤ INT_MAX := by decide
  have h4 : (4 * 5 : Int) ≠ 21 := by decide
  ⟨h4, h1, h2, ((TEST_ASSERT_EQ_spec (4 * 5) 21 "m").2.2 h4 h1 h2).1,
    (TEST_ASSERT_EQ_spec (4 * 5) 20 "m").1.mpr rfl⟩

/-- C7: on arrays with at least `size` elements, `TEST_ASSERT_ARRAY_EQ` passes
exactly when `actual[i] == expected[i]` for every `0 <= i < size` and fails
otherwise; changing one element at any position below `size` makes it fail;
the scan ends at the first mismatch (final `_i` is its index, nothing beyond it
is read) with the same result; and the result of `copy_array(dest, src, n)`
compares equal to `src` over `n` elements. -/
theorem TEST_ASSERT_ARRAY_EQ_spec (actual expected : List Int) (size : Int) (M : String)
    (ha : size ≤ (actual.length : Int)) (he : size ≤ (expected.length : Int)) :
    (TEST_ASSERT_ARRAY_EQ actual expected size M =
        some ⟨[⟨.stdout, "PASS: " ++ M ++ "\n"⟩], .next⟩ ↔
      ∀ i : Nat, (i : Int) < size → actual[i]? = expected[i]?) ∧
    ((¬ ∀ i : Nat, (i : Int) < size → actual[i]? = expected[i]?) →
      TEST_ASSERT_ARRAY_EQ actual expected size M =
        some ⟨[⟨.stderr, "FAIL: " ++ M ++ " - Arrays differ\n"⟩], .returns 0⟩) ∧
    (∀ (j : Nat) (x : Int), (j : Int) < size → actual[j]? ≠ some x →
      TEST_ASSERT_ARRAY_EQ actual (actual.set j x) size M =
        some ⟨[⟨.stderr, "FAIL: " ++ M ++ " - Arrays differ\n"⟩], .returns 0⟩) ∧
    (∀ j : Nat, (j : Int) < size → actual[j]? ≠ expected[j]? →
      (∀ k : Nat, k < j → actual[k]? = expected[k]?) →
      array_eq_scan actual expected size.toNat 0 = some (false, j) ∧
      TEST_ASSERT_ARRAY_EQ (actual.take (j + 1)) (expected.take (j + 1)) size M =
        TEST_ASSERT_ARRAY_EQ actual expected size M) ∧
    (∀ dest : List Int, size ≤ (dest.length : Int) →
      ∃ d : List Int, copy_array dest actual size = some d ∧
        TEST_ASSERT_ARRAY_EQ d actual size M =
          some ⟨[⟨.stdout, "PASS: " ++ M ++ "\n"⟩], .next⟩) := by
  refine ⟨⟨?_, array_assert_pass actual expected size M ha he⟩,
    array_assert_fail actual expected size M ha he, ?_, ?_, ?_⟩
  · intro hp
    by_contra hc
    rw [array_assert_fail actual expected size M ha he hc] at hp
    simp at hp
  · intro j x hj hx
    apply array_assert_fail actual (actual.set j x) size M ha (by rw [List.length_set]; exact ha)
    intro hc
    have hja : j < actual.length := by omega
    have := hc j hj
    rw [List.getElem?_set, if_pos rfl, if_pos hja] at this
    exact hx this
  · intro j hj hne hbefore
    have hja : j < actual.length := by omega
    have hje : j < expected.length := by omega
    have hne2 : actual[j] ≠ expected[j] := by
      intro hc
      apply hne
      rw [List.getElem?_eq_getElem hja, List.getElem?_eq_getElem hje, hc]
    have hb : ∀ k, k < j → ∃ v, actual[k]? = some v ∧ expected[k]? = some v := by
      intro k hk
      have hka : k < actual.length := by omega
      exact ⟨actual[k], List.getElem?_eq_getElem hka, by
        rw [← hbefore k hk, List.getElem?_eq_getElem hka]⟩
    have hfull := array_assert_fail_at actual expected size M j actual[j] expected[j] hj hb
      (List.getElem?_eq_getElem hja) (List.getElem?_eq_getElem hje) hne2
    have hcut := array_assert_fail_at (actual.take (j + 1)) (expected.take (j + 1)) size M j
      actual[j] expected[j] hj
      (by
        intro k hk
        obtain ⟨v, hv1, hv2⟩ := hb k hk
        exact ⟨v, by rw [List.getElem?_take_of_lt (by omega), hv1],
          by rw [List.getElem?_take_of_lt (by omega), hv2]⟩)
      (by rw [List.getElem?_take_of_lt (by omega), List.getElem?_eq_getElem hja])
      (by rw [List.getElem?_take_of_lt (by omega), List.getElem?_eq_getElem hje]) hne2
    exact ⟨hfull.1, by rw [hcut.2, hfull.2]⟩
  · intro dest hd
    obtain ⟨d, hd1, hd2, hd3, _⟩ := copy_array_loop_spec actual size.toNat 0 dest
      (by omega) (by omega)
    refine ⟨d, hd1, ?_⟩
    apply array_assert_pass d actual size M (by omega) ha
    intro i hi
    exact hd3 i (by omega) (by omega)

/-- Witness for C7: arrays of five elements differing in the last one, and the
copy of the source of `test_array_operations` into a zeroed array. -/
theorem TEST_ASSERT_ARRAY_EQ_spec_witness :
    ((5 : Int) ≤ (([1, 2, 3, 4, 5] : List Int).length : Int)) ∧
    ((5 : Int) ≤ (([1, 2, 3, 4, 6] : List Int).length : Int)) ∧
    TEST_ASSERT_ARRAY_EQ [1, 2, 3, 4, 5] [1, 2, 3, 4, 6] 5 "m" =
      some ⟨[⟨.stderr, "FAIL: m - Arrays differ\n"⟩], .returns 0⟩ ∧
    ∃ d : List Int, copy_array [0, 0, 0, 0, 0] [1, 2, 3, 4, 5] 5 = some d ∧
      TEST_ASSERT_ARRAY_EQ d [1, 2, 3, 4, 5] 5 "m" = some ⟨[⟨.stdout, "PASS: m\n"⟩], .next⟩ :=
  have h1 : (5 : Int) ≤ (([1, 2, 3, 4, 5] : List Int).length : Int) := by decide
  have h2 : (5 : Int) ≤ (([1, 2, 3, 4, 6] : List Int).length : Int) := by decide
  have h3 : (5 : Int) ≤ (([0, 0, 0, 0, 0] : List Int).length : Int) := by decide
  ⟨h1, h2,
    (TEST_ASSERT_ARRAY_EQ_spec [1, 2, 3, 4, 5] [1, 2, 3, 4, 6] 5 "m" h1 h2).2.1
      (fun hc => absurd (hc 4 (by decide)) (by decide)),
    (TEST_ASSERT_ARRAY_EQ_spec [1, 2, 3, 4, 5] [1, 2, 3, 4, 5] 5 "m" h1 h1).2.2.2.2
      [0, 0, 0, 0, 0] h3⟩

/-- C8: with the doubles taken as exact rationals, `TEST_ASSERT_FLOAT_EQ`
passes exactly when `|actual - expected| <= epsilon` and makes the unit return
0 otherwise; a difference equal to epsilon passes; swapping actual and expected
does not change the outcome. -/
theorem TEST_ASSERT_FLOAT_EQ_spec (fmt_f : ℚ → String) (actual expected epsilon : ℚ)
    (M : String) :
    (TEST_ASSERT_FLOAT_EQ fmt_f actual expected epsilon M =
        ⟨[⟨.stdout, "PASS: " ++ M ++ "\n"⟩], .next⟩ ↔ |actual - expected| ≤ epsilon) ∧
    ((TEST_ASSERT_FLOAT_EQ fmt_f actual expected epsilon M).ctl = .returns 0 ↔
      ¬ |actual - expected| ≤ epsilon) ∧
    TEST_ASSERT_FLOAT_EQ fmt_f actual expected |actual - expected| M =
      ⟨[⟨.stdout, "PASS: " ++ M ++ "\n"⟩], .next⟩ ∧
    (TEST_ASSERT_FLOAT_EQ fmt_f expected actual epsilon M).ctl =
      (TEST_ASSERT_FLOAT_EQ fmt_f actual expected epsilon M).ctl ∧
    TEST_ASSERT_FLOAT_EQ fmt_f (314159 / 100000) (314160 / 100000) (1 / 1000) M =
      ⟨[⟨.stdout, "PASS: " ++ M ++ "\n"⟩], .next⟩ ∧
    (TEST_ASSERT_FLOAT_EQ fmt_f (314159 / 100000) (32 / 10) (1 / 1000) M).ctl = .returns 0 := by
  have key : ∀ a e eps : ℚ,
      (|a - e| ≤ eps → TEST_ASSERT_FLOAT_EQ fmt_f a e eps M =
        ⟨[⟨.stdout, "PASS: " ++ M ++ "\n"⟩], .next⟩) ∧
      (¬ |a - e| ≤ eps → (TEST_ASSERT_FLOAT_EQ fmt_f a e eps M).ctl = .returns 0) := by
    intro a e eps
    constructor
    · intro h
      simp only [TEST_ASSERT_FLOAT_EQ, float_diff_eq_abs]
      simp [not_lt.mpr h]
    · intro h
      simp only [TEST_ASSERT_FLOAT_EQ, float_diff_eq_abs]
      simp [not_le.mp h]
  refine ⟨⟨?_, (key actual expected epsilon).1⟩, ⟨?_, (key actual expected epsilon).2⟩,
    (key actual expected _).1 le_rfl, ?_, ?_, ?_⟩
  · intro hp
    by_contra hc
    have := (key actual expected epsilon).2 hc
    rw [hp] at this
    simp at this
  · intro hp
    intro hc
    have := (key actual expected epsilon).1 hc
    rw [this] at hp
    simp at hp
  · by_cases h : |actual - expected| ≤ epsilon
    · rw [(key actual expected epsilon).1 h, (key expected actual epsilon).1 (by rwa [abs_sub_comm])]
    · rw [(key actual expected epsilon).2 h,
        (key expected actual epsilon).2 (by rwa [abs_sub_comm])]
  · apply (key _ _ _).1
    rw [abs_le]
    constructor <;> norm_num
  · apply (key _ _ _).2
    rw [abs_le]
    norm_num

/-- C9: `TEST_ASSERT_IN_RANGE` passes exactly when `min <= value <= max` and
makes the unit return 0 otherwise; both bounds pass whenever the range is not
empty, `min - 1` and `max + 1` fail. -/
theorem TEST_ASSERT_IN_RANGE_spec (value min max : Int) (M : String) :
    (TEST_ASSERT_IN_RANGE value min max M = ⟨[⟨.stdout, "PASS: " ++ M ++ "\n"⟩], .next⟩ ↔
      min ≤ value ∧ value ≤ max) ∧
    ((TEST_ASSERT_IN_RANGE value min max M).ctl = .returns 0 ↔ ¬ (min ≤ value ∧ value ≤ max)) ∧
    (TEST_ASSERT_IN_RANGE min min max M = ⟨[⟨.stdout, "PASS: " ++ M ++ "\n"⟩], .next⟩ ↔
      min ≤ max) ∧
    (TEST_ASSERT_IN_RANGE max min max M = ⟨[⟨.stdout, "PASS: " ++ M ++ "\n"⟩], .next⟩ ↔
      min ≤ max) ∧
    (TEST_ASSERT_IN_RANGE (min - 1) min max M).ctl = .returns 0 ∧
    (TEST_ASSERT_IN_RANGE (max + 1) min max M).ctl = .returns 0 ∧
    TEST_ASSERT_IN_RANGE 1 1 100 M = ⟨[⟨.stdout, "PASS: " ++ M ++ "\n"⟩], .next⟩ ∧
    TEST_ASSERT_IN_RANGE 100 1 100 M = ⟨[⟨.stdout, "PASS: " ++ M ++ "\n"⟩], .next⟩ ∧
    (TEST_ASSERT_IN_RANGE 0 1 100 M).ctl = .returns 0 := by
  have key : ∀ v lo hi : Int,
      (lo ≤ v ∧ v ≤ hi → TEST_ASSERT_IN_RANGE v lo hi M =
        ⟨[⟨.stdout, "PASS: " ++ M ++ "\n"⟩], .next⟩) ∧
      (¬ (lo ≤ v ∧ v ≤ hi) → (TEST_ASSERT_IN_RANGE v lo hi M).ctl = .returns 0) := by
    intro v lo hi
    constructor
    · intro h
      simp [TEST_ASSERT_IN_RANGE, not_lt.mpr h.1, not_lt.mpr h.2]
    · intro h
      have h2 : v < lo ∨ hi < v := by omega
      simp [TEST_ASSERT_IN_RANGE, h2]
  have iffp : ∀ v lo hi : Int,
      (TEST_ASSERT_IN_RANGE v lo hi M = ⟨[⟨.stdout, "PASS: " ++ M ++ "\n"⟩], .next⟩ ↔
        lo ≤ v ∧ v ≤ hi) := by
    intro v lo hi
    refine ⟨fun hp => ?_, (key v lo hi).1⟩
    by_contra hc
    have := (key v lo hi).2 hc
    rw [hp] at this
    simp at this
  refine ⟨iffp value min max, ⟨?_, (key value min max).2⟩, ?_, ?_, ?_, ?_, ?_, ?_, ?_⟩
  · intro hp hc
    rw [(key value min max).1 hc] at hp
    simp at hp
  · rw [iffp]; omega
  · rw [iffp]; omega
  · exact (key _ _ _).2 (by omega)
  · exact (key _ _ _).2 (by omega)
  · exact (key _ _ _).1 (by omega)
  · exact (key _ _ _).1 (by omega)
  · exact (key _ _ _).2 (by omega)

/-- C10: `STRESS_TEST(N, test_code, M)` evaluates `test_code` once per
iteration, `N` times in all; when no evaluation is false it prints the PASS
line and the unit continues; when at least one is false the unit returns 0 and
the count printed in `STRESS TEST FAIL: <failures>/<N>` is the number of
evaluations that were false. -/
theorem STRESS_TEST_spec {σ : Type} (N : Int) (test_code : σ → Bool × σ) (M : String) (s : σ) :
    (evaluations test_code N.toNat s).length = N.toNat ∧
    (STRESS_TEST N test_code M s).2 = state_after test_code N.toNat s ∧
    (STRESS_TEST N test_code M s).1 =
      if (evaluations test_code N.toNat s).count false = 0 then
        ⟨[⟨.stdout, "STRESS TEST: " ++ M ++ " (" ++ fmt_d N ++ " iterations)\n"⟩,
          ⟨.stdout, "STRESS TEST PASS: All " ++ fmt_d N ++ " iterations passed\n"⟩], .next⟩
      else
        ⟨[⟨.stdout, "STRESS TEST: " ++ M ++ " (" ++ fmt_d N ++ " iterations)\n"⟩,
          ⟨.stderr, "STRESS TEST FAIL: " ++
            fmt_d ((evaluations test_code N.toNat s).count false : Int) ++ "/" ++ fmt_d N ++
            " iterations failed\n"⟩], .returns 0⟩ := by
  refine ⟨?_, ?_, ?_⟩
  · generalize N.toNat = n
    induction n generalizing s with
    | zero => rfl
    | succ n ih => simp [evaluations, ih]
  · unfold STRESS_TEST
    simp only [stress_loop_counts]
    split <;> rfl
  · unfold STRESS_TEST
    simp only [stress_loop_counts, zero_add]
    by_cases h : (evaluations test_code N.toNat s).count false = 0
    · simp [h]
    · have hpos : ((evaluations test_code N.toNat s).count false : Int) > 0 := by
        have : 0 < (evaluations test_code N.toNat s).count false := Nat.pos_of_ne_zero h
        exact_mod_cast this
      simp only [h, if_false, hpos, if_true]

/-- C11: a block that reaches a failing `CHECK` or `CHECK_PTR` ends the child
with `exit(EXIT_FAILURE)` before the statements after the check are evaluated
(`divide_by_zero` and `access_null_pointer` never reach their undefined
operation); the parent then sees a non-zero exit code, the crash assertion
passes and the unit is counted as passed.  A block that falls through makes
the child call `exit(0)`; the parent returns 0 and the unit is counted as
failed. -/
theorem crash_sandbox_fatal_checks (env : Env) (file : String) (pid : Int) (hpid : 0 < pid) :
    (∀ (msg : String) (line : Int) (k : Unit → Option Step),
      (CHECK false msg file line).bind k = some (CHECK false msg file line) ∧
      (CHECK false msg file line).ctl = .exits EXIT_FAILURE) ∧
    (∀ (ptr_text : String) (line : Int) (k : Unit → Option Step),
      (CHECK_PTR NULL ptr_text file line).bind k = some (CHECK_PTR NULL ptr_text file line) ∧
      (CHECK_PTR NULL ptr_text file line).ctl = .exits EXIT_FAILURE) ∧
    divide_by_zero file =
      some ⟨[⟨.stderr, "ERROR: Division by zero (" ++ file ++ ":" ++ fmt_d 36 ++ ")\n"⟩],
        .exits EXIT_FAILURE⟩ ∧
    access_null_pointer file =
      some ⟨[⟨.stderr, "ERROR: NULL POINTER DETECTED: ptr AT " ++ file ++ ":" ++ fmt_d 42 ++
        "\n"⟩], .exits EXIT_FAILURE⟩ ∧
    (∀ (block : Step) (M : String) (name : String) (c : Counters),
      block.ctl = .exits EXIT_FAILURE →
      (TEST_EXPECT_CRASH 0 block (.exited 0) M).ctl = .exits EXIT_FAILURE ∧
      status_of_exit EXIT_FAILURE = .exited 1 ∧
      sandbox pid block M =
        some ⟨[⟨.stdout, "PASS: " ++ M ++ " (crashed as expected)\n"⟩], .next⟩ ∧
      (RUN_TEST name (unit_of_steps
          [TEST_EXPECT_CRASH pid block (status_of_exit EXIT_FAILURE) M]) c).2 =
        ⟨c.tests_passed + 1, c.tests_failed, c.total_tests + 1⟩) ∧
    (∀ (name : String) (c : Counters),
      ∃ u : Call,
        test_crash_scenarios env file pid (status_of_exit EXIT_FAILURE) pid
          (status_of_exit EXIT_FAILURE) = some u ∧
        u.outcome = .returned 1 ∧
        (RUN_TEST name u c).2 = ⟨c.tests_passed + 1, c.tests_failed, c.total_tests + 1⟩) ∧
    (∀ (block : Step) (M : String) (name : String) (c : Counters),
      block.ctl = .next →
      (TEST_EXPECT_CRASH 0 block (.exited 0) M).ctl = .exits 0 ∧
      sandbox pid block M =
        some ⟨[⟨.stderr, "FAIL: " ++ M ++ " (expected crash but didn't crash)\n"⟩],
          .returns 0⟩ ∧
      (RUN_TEST name (unit_of_steps
          [TEST_EXPECT_CRASH pid block (status_of_exit 0) M]) c).2 =
        ⟨c.tests_passed, c.tests_failed + 1, c.total_tests + 1⟩) := by
  have h0 : pid ≠ 0 := by omega
  refine ⟨?_, ?_, divide_by_zero_eq file, access_null_pointer_eq file, ?_, ?_, ?_⟩
  · intro msg line k
    simp [CHECK, Step.bind]
  · intro ptr_text line k
    simp [CHECK_PTR, Step.bind]
  · intro block M name c hb
    obtain ⟨h1, h2⟩ := sandbox_of_exit pid block M EXIT_FAILURE hb
    refine ⟨h1, by decide, ?_, ?_⟩
    · rw [h2, parent_pass_of_failure_exit pid hpid]
    · rw [parent_pass_of_failure_exit pid hpid]
      simp [unit_of_steps, RUN_TEST]
  · intro name c
    simp only [test_crash_scenarios, divide_by_zero_eq, access_null_pointer_eq, Option.map_some',
      parent_pass_of_failure_exit pid hpid]
    refine ⟨_, rfl, ?_, ?_⟩
    · by_cases ht : (getenv env "TRACE").isSome <;> simp [unit_of_steps, TRACE_FUNCTION, ht]
    · by_cases ht : (getenv env "TRACE").isSome <;>
        simp [unit_of_steps, TRACE_FUNCTION, ht, RUN_TEST]
  · intro block M name c hb
    obtain ⟨h1, h2⟩ := sandbox_of_next pid hpid block M hb
    refine ⟨h1, h2, ?_⟩
    simp [unit_of_steps, RUN_TEST, TEST_EXPECT_CRASH, h0, hpid, status_of_exit, WIFEXITED,
      WEXITSTATUS]

/-- Witness for C11: the parent of a child with pid 4242, the blocks being the
calls of `divide_by_zero` and of a function that does nothing. -/
theorem crash_sandbox_fatal_checks_witness :
    (0 : Int) < 4242 ∧
    sandbox 4242 (call_stmt ⟨[⟨.stderr, "ERROR: Division by zero (example.c:36)\n"⟩],
        .exits EXIT_FAILURE⟩) "Division by zero should crash" =
      some ⟨[⟨.stdout, "PASS: Division by zero should crash (crashed as expected)\n"⟩], .next⟩ ∧
    sandbox 4242 (call_stmt ⟨[], .next⟩) "m" =
      some ⟨[⟨.stderr, "FAIL: m (expected crash but didn't crash)\n"⟩], .returns 0⟩ :=
  have hp : (0 : Int) < 4242 := by decide
  have h := crash_sandbox_fatal_checks (fun _ => none) "example.c" 4242 hp
  ⟨hp,
    (h.2.2.2.2.1 (call_stmt ⟨[⟨.stderr, "ERROR: Division by zero (example.c:36)\n"⟩],
        .exits EXIT_FAILURE⟩) "Division by zero should crash" "t" Counters.init rfl).2.2.1,
    (h.2.2.2.2.2.2 (call_stmt ⟨[], .next⟩) "m" "t" Counters.init rfl).2.1⟩

/-- C12: three units run through `RUN_TEST` from zeroed counters, in any
order, one asserting a true condition, one a false condition, one expecting a
crash of a block whose child is seen to crash (non-zero exit code or signal,
`fork` succeeding), leave `total_tests = 3`, `tests_passed = 2`,
`tests_failed = 1`, and `main` ends the process with a non-zero status. -/
theorem end_to_end_three_units (fmt_f fmt_1f : ℚ → String) (t : ℚ)
    (n1 n2 n3 M1 M2 M3 : String) (pid : Int) (block : Step) (status : WaitStatus)
    (units : List (String × Call)) (hpid : 0 < pid) (hcrash : status ≠ .exited 0)
    (hperm : units.Perm
      [(n1, unit_of_steps [TEST_ASSERT true M1]),
        (n2, unit_of_steps [TEST_ASSERT false M2]),
        (n3, unit_of_steps [TEST_EXPECT_CRASH pid block status M3])]) :
    (run_tests units Counters.init).2 = ⟨2, 1, 3⟩ ∧
    main_return (run_tests units Counters.init).2 ≠ 0 ∧
    ∃ c : Call, main fmt_f fmt_1f t units = some c ∧ c.outcome = .returned 1 ∧
      exit_status c ≠ 0 := by
  have hu1 : unit_of_steps [TEST_ASSERT true M1] =
      ⟨[⟨.stdout, "PASS: " ++ M1 ++ "\n"⟩], .returned 1⟩ := by
    simp [unit_of_steps, TEST_ASSERT]
  have hu2 : unit_of_steps [TEST_ASSERT false M2] =
      ⟨[⟨.stderr, "FAIL: " ++ M2 ++ "\n"⟩], .returned 0⟩ := by
    simp [unit_of_steps, TEST_ASSERT]
  have hu3 : unit_of_steps [TEST_EXPECT_CRASH pid block status M3] =
      ⟨[⟨.stdout, "PASS: " ++ M3 ++ " (crashed as expected)\n"⟩], .returned 1⟩ := by
    rw [parent_pass_of_crash pid hpid block status hcrash]
    simp [unit_of_steps]
  rw [hu1, hu2, hu3] at hperm
  have hret : ∀ u ∈ units, ∃ r, u.2.outcome = .returned r := by
    intro u hu
    have := hperm.mem_iff.mp hu
    simp only [List.mem_cons, List.mem_singleton, List.not_mem_nil, or_false] at this
    rcases this with h | h | h <;> rw [h] <;> exact ⟨_, rfl⟩
  obtain ⟨hctl, hc⟩ := run_tests_counters units Counters.init hret
  have hlen : units.length = 3 := by rw [hperm.length_eq]; rfl
  have hf : failed_units units = 1 := by
    unfold failed_units
    rw [hperm.countP_eq]
    rfl
  have hcount : (run_tests units Counters.init).2 = ⟨2, 1, 3⟩ := by
    rw [hc, hlen, hf]
    rfl
  obtain ⟨out, hmain⟩ := main_returns fmt_f fmt_1f t units hctl
  rw [hcount] at hmain
  refine ⟨hcount, by rw [hcount]; decide, _, hmain, rfl, ?_⟩
  simp [exit_status, main_return]

/-- Witness for C12: the order false, crash, true, the crash being the exit
with `EXIT_FAILURE` of a failed `CHECK`. -/
theorem end_to_end_three_units_witness :
    (0 : Int) < 77 ∧ status_of_exit EXIT_FAILURE ≠ .exited 0 ∧
    (run_tests
      [("f", unit_of_steps [TEST_ASSERT false "no"]),
        ("c", unit_of_steps [TEST_EXPECT_CRASH 77 (CHECK false "x" "a.c" 1)
          (status_of_exit EXIT_FAILURE) "boom"]),
        ("t", unit_of_steps [TEST_ASSERT true "yes"])] Counters.init).2 = ⟨2, 1, 3⟩ :=
  have hp : (0 : Int) < 77 := by decide
  have hs : status_of_exit EXIT_FAILURE ≠ .exited 0 := by decide
  ⟨hp, hs, (end_to_end_three_units (fun _ => "") (fun _ => "") 0 "t" "f" "c" "yes" "no" "boom"
    77 (CHECK false "x" "a.c" 1) (status_of_exit EXIT_FAILURE) _ hp hs
    (by decide)).1⟩

/-- C13: when every unit comes back to the runner, `main` returns
`(tests_failed == 0) ? 0 : 1`: the exit status is 0 exactly when the failed
count is 0 after all units have run, which from zeroed counters is exactly
when no unit returned 0, and it is non-zero otherwise. -/
theorem main_exit_status (fmt_f fmt_1f : ℚ → String) (t : ℚ) (units : List (String × Call))
    (hret : ∀ u ∈ units, ∃ r, u.2.outcome = .returned r) :
    ∃ c : Call, main fmt_f fmt_1f t units = some c ∧
      c.outcome = .returned (main_return (run_tests units Counters.init).2) ∧
      (exit_status c = 0 ↔ (run_tests units Counters.init).2.tests_failed = 0) ∧
      (exit_status c ≠ 0 ↔ (run_tests units Counters.init).2.tests_failed ≠ 0) ∧
      (exit_status c = 0 ↔ ∀ u ∈ units, u.2.outcome ≠ .returned 0) := by
  obtain ⟨hctl, hc⟩ := run_tests_counters units Counters.init hret
  obtain ⟨out, hmain⟩ := main_returns fmt_f fmt_1f t units hctl
  have hes : exit_status ⟨out, .returned (main_return (run_tests units Counters.init).2)⟩ =
      main_return (run_tests units Counters.init).2 := rfl
  have hiff : main_return (run_tests units Counters.init).2 = 0 ↔
      (run_tests units Counters.init).2.tests_failed = 0 := by
    unfold main_return
    by_cases h : (run_tests units Counters.init).2.tests_failed = 0 <;> simp [h]
  refine ⟨_, hmain, rfl, ?_, ?_, ?_⟩
  · rw [hes]; exact hiff
  · rw [hes]; exact not_congr hiff
  · rw [hes, hiff, hc, ← failed_units_eq_zero_iff]
    simp [Counters.init]

/-- Witness for C13: two units, the second one returning 0. -/
theorem main_exit_status_witness :
    (∀ u ∈ [("a", (⟨[], .returned 1⟩ : Call)), ("b", ⟨[], .returned 0⟩)],
      ∃ r, u.2.outcome = .returned r) ∧
    ∃ c : Call, main (fun _ => "") (fun _ => "") 0
        [("a", (⟨[], .returned 1⟩ : Call)), ("b", ⟨[], .returned 0⟩)] = some c ∧
      c.outcome = .returned (main_return (run_tests
        [("a", (⟨[], .returned 1⟩ : Call)), ("b", ⟨[], .returned 0⟩)] Counters.init).2) :=
  have h : ∀ u ∈ [("a", (⟨[], .returned 1⟩ : Call)), ("b", ⟨[], .returned 0⟩)],
      ∃ r, u.2.outcome = .returned r := by
    simp
  match main_exit_status (fun _ => "") (fun _ => "") 0 _ h with
  | ⟨c, h1, h2, _⟩ => ⟨h, c, h1, h2⟩

/-- C14: `TEST_SKIP` with a true condition prints `SKIP: M` and the unit returns
1 at once: nothing after it runs, whatever it is, and `RUN_TEST` adds the unit
to `tests_passed`, leaving `tests_failed` alone; with a false condition it
prints nothing and the rest of the body runs unchanged. -/
theorem TEST_SKIP_spec (M name : String) (rest : List Step) (k : Unit → Option Step)
    (c : Counters) :
    TEST_SKIP true M = ⟨[⟨.stdout, "SKIP: " ++ M ++ "\n"⟩], .returns 1⟩ ∧
    (TEST_SKIP true M).bind k = some ⟨[⟨.stdout, "SKIP: " ++ M ++ "\n"⟩], .returns 1⟩ ∧
    unit_of_steps (TEST_SKIP true M :: rest) =
      ⟨[⟨.stdout, "SKIP: " ++ M ++ "\n"⟩], .returned 1⟩ ∧
    unit_of_steps (TEST_SKIP true M :: TEST_ASSERT false "never" :: rest) =
      ⟨[⟨.stdout, "SKIP: " ++ M ++ "\n"⟩], .returned 1⟩ ∧
    (RUN_TEST name (unit_of_steps (TEST_SKIP true M :: rest)) c).2 =
      ⟨c.tests_passed + 1, c.tests_failed, c.total_tests + 1⟩ ∧
    TEST_SKIP false M = ⟨[], .next⟩ ∧
    (TEST_SKIP false M).bind k = k () ∧
    unit_of_steps (TEST_SKIP false M :: rest) = unit_of_steps rest := by
  refine ⟨rfl, rfl, rfl, rfl, ?_, rfl, ?_, ?_⟩
  · simp [unit_of_steps, TEST_SKIP, RUN_TEST]
  · simp only [TEST_SKIP, Bool.false_eq_true, if_false, Step.bind, List.nil_append]
    cases k () <;> rfl
  · simp [unit_of_steps, TEST_SKIP]

/-- C15: a member of the fatal `CHECK` family whose guard fails prints one line
starting with `ERROR:` on stderr and ends the process with `EXIT_FAILURE`,
which is not 0: nothing after it is evaluated, the enclosing unit never
returns, `RUN_TEST` never counts it and no later unit runs, whatever the
counters are; when the guard holds it prints nothing and execution goes on to
the next statement. -/
theorem fatal_checks_terminate (file : String) (line : Int) (k : FatalCheck) :
    EXIT_FAILURE ≠ 0 ∧
    (¬ k.GuardHolds →
      (∃ text : String,
        k.exec file line = ⟨[⟨.stderr, "ERROR: " ++ text⟩], .exits EXIT_FAILURE⟩) ∧
      (∀ cont : Unit → Option Step, (k.exec file line).bind cont = some (k.exec file line)) ∧
      (∀ (pre post : List Step) (name : String) (more : List (String × Call)) (c : Counters),
        (∀ p ∈ pre, p.ctl = .next) →
        (unit_of_steps (pre ++ k.exec file line :: post)).outcome = .exited EXIT_FAILURE ∧
        (RUN_TEST name (unit_of_steps (pre ++ k.exec file line :: post)) c).1.ctl =
          .exits EXIT_FAILURE ∧
        (RUN_TEST name (unit_of_steps (pre ++ k.exec file line :: post)) c).2 = c ∧
        (run_tests ((name, unit_of_steps (pre ++ k.exec file line :: post)) :: more) c).1.ctl =
          .exits EXIT_FAILURE ∧
        run_tests ((name, unit_of_steps (pre ++ k.exec file line :: post)) :: more) c =
          RUN_TEST name (unit_of_steps (pre ++ k.exec file line :: post)) c)) ∧
    (k.GuardHolds →
      k.exec file line = ⟨[], .next⟩ ∧
      (∀ cont : Unit → Option Step, (k.exec file line).bind cont = cont ()) ∧
      ∀ rest : List Step, unit_of_steps (k.exec file line :: rest) = unit_of_steps rest) := by
  refine ⟨by decide, fun h => ?_, fun h => ?_⟩
  · obtain ⟨text, ht⟩ := fatal_exec_of_guard_fails file line k h
    refine ⟨⟨text, ht⟩, ?_, ?_⟩
    · intro cont
      simp [Step.bind, ht]
    · intro pre post name more c hpre
      have hout := unit_of_steps_exits (k.exec file line) EXIT_FAILURE (by rw [ht]) post pre hpre
      have hrun : (RUN_TEST name (unit_of_steps (pre ++ k.exec file line :: post)) c).1.ctl =
          .exits EXIT_FAILURE ∧
          (RUN_TEST name (unit_of_steps (pre ++ k.exec file line :: post)) c).2 = c := by
        simp [RUN_TEST, hout]
      refine ⟨hout, hrun.1, hrun.2, ?_, ?_⟩
      · simp [run_tests, hrun.1]
      · simp [run_tests, hrun.1]
  · have hn := fatal_exec_of_guard_holds file line k h
    refine ⟨hn, ?_, ?_⟩
    · intro cont
      simp only [Step.bind, hn, List.nil_append]
      cases cont () <;> rfl
    · intro rest
      simp [unit_of_steps, hn]

/-- Witness for C15: a failed allocation check after a passing assertion, and
a bounds check that holds. -/
theorem fatal_checks_terminate_witness :
    ¬ (FatalCheck.check_alloc NULL "buf").GuardHolds ∧
    (FatalCheck.check_bounds 5 10 "Array access").GuardHolds ∧
    (unit_of_steps ([TEST_ASSERT true "a"] ++
      (FatalCheck.check_alloc NULL "buf").exec "example.c" 151 ::
        [TEST_ASSERT true "b"])).outcome = .exited EXIT_FAILURE ∧
    (FatalCheck.check_bounds 5 10 "Array access").exec "example.c" 290 = ⟨[], .next⟩ :=
  have h1 : ¬ (FatalCheck.check_alloc NULL "buf").GuardHolds := by
    simp [FatalCheck.GuardHolds]
  have h2 : (FatalCheck.check_bounds 5 10 "Array access").GuardHolds := by
    simp [FatalCheck.GuardHolds]
  ⟨h1, h2,
    (((fatal_checks_terminate "example.c" 151 (.check_alloc NULL "buf")).2.1 h1).2.2
      [TEST_ASSERT true "a"] [TEST_ASSERT true "b"] "t" [] Counters.init
      (by simp [TEST_ASSERT])).1,
    ((fatal_checks_terminate "example.c" 290 (.check_bounds 5 10 "Array access")).2.2 h2).1⟩

/-- C16: `CHECK_BOUNDS(index, size, msg)` lets execution go on exactly when
`0 <= index < size` and ends the process with `EXIT_FAILURE` otherwise: for a
negative index, for `index >= size`, `index == size` included, and for every
index when `size <= 0`. -/
theorem CHECK_BOUNDS_spec (index size : Int) (msg file : String) (line : Int) :
    (CHECK_BOUNDS index size msg file line = ⟨[], .next⟩ ↔ 0 ≤ index ∧ index < size) ∧
    ((CHECK_BOUNDS index size msg file line).ctl = .exits EXIT_FAILURE ↔
      ¬ (0 ≤ index ∧ index < size)) ∧
    (index < 0 → (CHECK_BOUNDS index size msg file line).ctl = .exits EXIT_FAILURE) ∧
    (size ≤ index → (CHECK_BOUNDS index size msg file line).ctl = .exits EXIT_FAILURE) ∧
    (CHECK_BOUNDS size size msg file line).ctl = .exits EXIT_FAILURE ∧
    (size ≤ 0 → (CHECK_BOUNDS index size msg file line).ctl = .exits EXIT_FAILURE) ∧
    EXIT_FAILURE ≠ 0 := by
  have key : ∀ i n : Int,
      (0 ≤ i ∧ i < n → CHECK_BOUNDS i n msg file line = ⟨[], .next⟩) ∧
      (¬ (0 ≤ i ∧ i < n) → (CHECK_BOUNDS i n msg file line).ctl = .exits EXIT_FAILURE) := by
    intro i n
    constructor
    · intro h
      simp [CHECK_BOUNDS, not_lt.mpr h.1, h.2]
    · intro h
      have h2 : i < 0 ∨ n ≤ i := by omega
      simp [CHECK_BOUNDS, h2]
  refine ⟨⟨fun hp => ?_, (key index size).1⟩, ⟨fun hp hc => ?_, (key index size).2⟩,
    fun h => (key _ _).2 (by omega), fun h => (key _ _).2 (by omega), (key _ _).2 (by omega),
    fun h => (key _ _).2 (by omega), by decide⟩
  · by_contra hc
    have := (key index size).2 hc
    rw [hp] at this
    simp at this
  · rw [(key index size).1 hc] at hp
    simp at hp

/-- Witness for C16: index 10 of an array of 10 elements, index -1, and an
index into an array of size 0. -/
theorem CHECK_BOUNDS_spec_witness :
    ((10 : Int) ≤ 10 ∧ (CHECK_BOUNDS 10 10 "Array access" "example.c" 290).ctl =
      .exits EXIT_FAILURE) ∧
    ((-1 : Int) < 0 ∧ (CHECK_BOUNDS (-1) 10 "Array access" "example.c" 290).ctl =
      .exits EXIT_FAILURE) ∧
    ((0 : Int) ≤ 0 ∧ (CHECK_BOUNDS 0 0 "Array access" "example.c" 290).ctl =
      .exits EXIT_FAILURE) ∧
    CHECK_BOUNDS 5 10 "Array access" "example.c" 290 = ⟨[], .next⟩ :=
  have h1 : (10 : Int) ≤ 10 := by decide
  have h2 : (-1 : Int) < 0 := by decide
  have h3 : (0 : Int) ≤ 0 := by decide
  ⟨⟨h1, (CHECK_BOUNDS_spec 10 10 "Array access" "example.c" 290).2.2.2.1 h1⟩,
    ⟨h2, (CHECK_BOUNDS_spec (-1) 10 "Array access" "example.c" 290).2.2.1 h2⟩,
    ⟨h3, (CHECK_BOUNDS_spec 0 0 "Array access" "example.c" 290).2.2.2.2.2.1 h3⟩,
    (CHECK_BOUNDS_spec 5 10 "Array access" "example.c" 290).1.mpr (by decide)⟩

/-- C17: `TEST_BUFFER_OVERFLOW` passes exactly when `write_size <= size` and
makes the unit return 0 otherwise; the outcome is the same for every content of
the buffer, and the buffer is given back as it was. -/
theorem TEST_BUFFER_OVERFLOW_spec (buffer other : List Int) (size write_size : Int)
    (M : String) :
    ((TEST_BUFFER_OVERFLOW buffer size write_size M).1 =
        ⟨[⟨.stdout, "PASS: " ++ M ++ "\n"⟩], .next⟩ ↔ write_size ≤ size) ∧
    ((TEST_BUFFER_OVERFLOW buffer size write_size M).1.ctl = .returns 0 ↔
      ¬ write_size ≤ size) ∧
    (TEST_BUFFER_OVERFLOW buffer size write_size M).2 = buffer ∧
    (TEST_BUFFER_OVERFLOW other size write_size M).1 =
      (TEST_BUFFER_OVERFLOW buffer size write_size M).1 ∧
    (TEST_BUFFER_OVERFLOW buffer size size M).1 = ⟨[⟨.stdout, "PASS: " ++ M ++ "\n"⟩], .next⟩ ∧
    (TEST_BUFFER_OVERFLOW buffer 10 5 M).1 = ⟨[⟨.stdout, "PASS: " ++ M ++ "\n"⟩], .next⟩ ∧
    (TEST_BUFFER_OVERFLOW buffer 10 15 M).1 =
      ⟨[⟨.stderr, "FAIL: " ++ M ++
        " - Buffer overflow detected (writing 15 bytes to 10 byte buffer)\n"⟩], .returns 0⟩ := by
  have key : ∀ (b : List Int) (n w : Int),
      (w ≤ n → (TEST_BUFFER_OVERFLOW b n w M).1 = ⟨[⟨.stdout, "PASS: " ++ M ++ "\n"⟩], .next⟩) ∧
      (¬ w ≤ n → (TEST_BUFFER_OVERFLOW b n w M).1.ctl = .returns 0) := by
    intro b n w
    constructor
    · intro h
      simp [TEST_BUFFER_OVERFLOW, not_lt.mpr h]
    · intro h
      simp [TEST_BUFFER_OVERFLOW, not_le.mp h]
  refine ⟨⟨fun hp => ?_, (key _ _ _).1⟩, ⟨fun hp hc => ?_, (key _ _ _).2⟩, ?_, ?_,
    (key _ _ _).1 le_rfl, (key _ _ _).1 (by decide), ?_⟩
  · by_contra hc
    have := (key buffer size write_size).2 hc
    rw [hp] at this
    simp at this
  · rw [(key buffer size write_size).1 hc] at hp
    simp at hp
  · unfold TEST_BUFFER_OVERFLOW
    split <;> rfl
  · unfold TEST_BUFFER_OVERFLOW
    split <;> rfl
  · have h15 : to_int 15 = 15 := by decide
    have h10 : to_int 10 = 10 := by decide
    have hgt : (15 : Int) > 10 := by decide
    simp only [TEST_BUFFER_OVERFLOW, hgt, if_true, h15, h10, fmt_d]
    have e15 : toString (15 : Int) = "15" := by decide
    have e10 : toString (10 : Int) = "10" := by decide
    rw [e15, e10]
    have hl : (" - Buffer overflow detected (writing 15 bytes to 10 byte buffer)\n" : String) =
        " - Buffer overflow detected (writing " ++ "15" ++ " bytes to " ++ "10" ++
          " byte buffer)\n" := by decide
    rw [hl]
    simp only [String.append_assoc]

/-- C18: `WARN` and `CHECK_MEMORY_LEAKS` always fall through to the next
statement (they neither return from the unit nor end the process), give the
ledger back unchanged, and a unit with one of them inserted anywhere ends as
the unit without it, so `RUN_TEST` updates the counters in the same way; a unit
that reports a leak and then executes `return 1` is counted as passed. -/
theorem advisory_output_frame (condition : Bool) (msg file : String) (line : Int) (l : Ledger)
    (pre post : List Step) (name : String) (c : Counters) :
    (WARN condition msg file line).ctl = .next ∧
    (CHECK_MEMORY_LEAKS l).1.ctl = .next ∧
    (CHECK_MEMORY_LEAKS l).2 = l ∧
    (unit_of_steps (pre ++ WARN condition msg file line :: post)).outcome =
      (unit_of_steps (pre ++ post)).outcome ∧
    (unit_of_steps (pre ++ (CHECK_MEMORY_LEAKS l).1 :: post)).outcome =
      (unit_of_steps (pre ++ post)).outcome ∧
    (RUN_TEST name (unit_of_steps (pre ++ WARN condition msg file line :: post)) c).2 =
      (RUN_TEST name (unit_of_steps (pre ++ post)) c).2 ∧
    (RUN_TEST name (unit_of_steps (pre ++ (CHECK_MEMORY_LEAKS l).1 :: post)) c).2 =
      (RUN_TEST name (unit_of_steps (pre ++ post)) c).2 ∧
    (CHECK_MEMORY_LEAKS ⟨2, 1⟩).1 =
      ⟨[⟨.stderr, "MEMORY LEAK: 2 mallocs, 1 frees\n"⟩], .next⟩ ∧
    (unit_of_steps [(CHECK_MEMORY_LEAKS ⟨2, 1⟩).1]).outcome = .returned 1 ∧
    (RUN_TEST name (unit_of_steps [(CHECK_MEMORY_LEAKS ⟨2, 1⟩).1]) c).2 =
      ⟨c.tests_passed + 1, c.tests_failed, c.total_tests + 1⟩ := by
  have hw := WARN_next condition msg file line
  have hm := CHECK_MEMORY_LEAKS_next l
  have h1 := unit_of_steps_skip_next _ hw post pre
  have h2 := unit_of_steps_skip_next _ hm.1 post pre
  refine ⟨hw, hm.1, hm.2, h1, h2, RUN_TEST_counters_of_outcome name _ _ c h1,
    RUN_TEST_counters_of_outcome name _ _ c h2, by decide, by decide, ?_⟩
  have h3 : unit_of_steps [(CHECK_MEMORY_LEAKS ⟨2, 1⟩).1] =
      ⟨[⟨.stderr, "MEMORY LEAK: 2 mallocs, 1 frees\n"⟩], .returned 1⟩ := by decide
  rw [h3]
  simp [RUN_TEST]

/-- C19: from a fresh ledger, after any sequence of `TRACK_MALLOC` /
`TRACK_FREE` calls on non-null pointers the two counters are the numbers of
calls of each kind; `CHECK_MEMORY_LEAKS` prints the `MEMORY:` all-clear line
exactly when the two numbers are equal and otherwise the `MEMORY LEAK:` line
carrying both; a tracking call on a non-null pointer adds one to its own
counter only, and no tracking call ever lowers a counter. -/
theorem ledger_counts_calls (ops : List LedgerOp) (hnn : ∀ op ∈ ops, op.ptr ≠ NULL) :
    (run_ledger ops MALLOC_COUNT_START)._malloc_count =
      (ops.countP (fun op => op.is_malloc) : Int) ∧
    (run_ledger ops MALLOC_COUNT_START)._free_count =
      (ops.countP (fun op => !op.is_malloc) : Int) ∧
    ((CHECK_MEMORY_LEAKS (run_ledger ops MALLOC_COUNT_START)).1 =
        ⟨[⟨.stdout, "MEMORY: All allocations freed (" ++
          fmt_d (ops.countP (fun op => op.is_malloc) : Int) ++ " mallocs, " ++
          fmt_d (ops.countP (fun op => !op.is_malloc) : Int) ++ " frees)\n"⟩], .next⟩ ↔
      ops.countP (fun op => op.is_malloc) = ops.countP (fun op => !op.is_malloc)) ∧
    (ops.countP (fun op => op.is_malloc) ≠ ops.countP (fun op => !op.is_malloc) →
      (CHECK_MEMORY_LEAKS (run_ledger ops MALLOC_COUNT_START)).1 =
        ⟨[⟨.stderr, "MEMORY LEAK: " ++
          fmt_d (ops.countP (fun op => op.is_malloc) : Int) ++ " mallocs, " ++
          fmt_d (ops.countP (fun op => !op.is_malloc) : Int) ++ " frees\n"⟩], .next⟩) ∧
    (∀ (p : Nat) (l : Ledger), p ≠ NULL →
      TRACK_MALLOC p l = ⟨l._malloc_count + 1, l._free_count⟩ ∧
      TRACK_FREE p l = ⟨l._malloc_count, l._free_count + 1⟩) ∧
    (∀ (op : LedgerOp) (l : Ledger),
      l._malloc_count ≤ (op.apply l)._malloc_count ∧
      l._free_count ≤ (op.apply l)._free_count) := by
  have hl := run_ledger_counts ops MALLOC_COUNT_START hnn
  simp only [MALLOC_COUNT_START, zero_add] at hl
  simp only [MALLOC_COUNT_START]
  rw [hl]
  refine ⟨rfl, rfl, ?_, ?_, ?_, ?_⟩
  · by_cases h : ops.countP (fun op => op.is_malloc) = ops.countP (fun op => !op.is_malloc)
    · have h2 : ((ops.countP (fun op => op.is_malloc) : Nat) : Int) =
          ((ops.countP (fun op => !op.is_malloc) : Nat) : Int) := by rw [h]
      simp [CHECK_MEMORY_LEAKS, h2, h]
    · have h2 : ((ops.countP (fun op => op.is_malloc) : Nat) : Int) ≠
          ((ops.countP (fun op => !op.is_malloc) : Nat) : Int) := by exact_mod_cast h
      simp [CHECK_MEMORY_LEAKS, h2, h]
  · intro h
    have h2 : ((ops.countP (fun op => op.is_malloc) : Nat) : Int) ≠
        ((ops.countP (fun op => !op.is_malloc) : Nat) : Int) := by exact_mod_cast h
    simp [CHECK_MEMORY_LEAKS, h2]
  · intro p l hp
    simp [TRACK_MALLOC, TRACK_FREE, hp]
  · intro op l
    cases op with
    | track_malloc p =>
      by_cases hp : p = NULL <;> simp [LedgerOp.apply, TRACK_MALLOC, hp]
    | track_free p =>
      by_cases hp : p = NULL <;> simp [LedgerOp.apply, TRACK_FREE, hp]

/-- Witness for C19: the calls of `test_memory_management` (two allocations,
two frees) on the addresses 4096 and 8192. -/
theorem ledger_counts_calls_witness :
    (∀ op ∈ [LedgerOp.track_malloc 4096, .track_malloc 8192, .track_free 4096,
      .track_free 8192], op.ptr ≠ NULL) ∧
    (run_ledger [LedgerOp.track_malloc 4096, .track_malloc 8192, .track_free 4096,
      .track_free 8192] MALLOC_COUNT_START)._malloc_count = 2 ∧
    (run_ledger [LedgerOp.track_malloc 4096, .track_malloc 8192, .track_free 4096,
      .track_free 8192] MALLOC_COUNT_START)._free_count = 2 :=
  have h : ∀ op ∈ [LedgerOp.track_malloc 4096, .track_malloc 8192, .track_free 4096,
      .track_free 8192], op.ptr ≠ NULL := by
    simp [LedgerOp.ptr, NULL]
  have t := ledger_counts_calls _ h
  ⟨h, t.1, t.2.1⟩

/-- Counterexample for C20: with `DEBUG` set to the empty string `getenv` gives
a non-null pointer, and `DEBUG_PRINT` and `LOG_VAR` print. -/
theorem debug_output_on_empty_value :
    getenv (setenv (fun _ => none) "DEBUG" "") "DEBUG" = some "" ∧
    DEBUG_PRINT (setenv (fun _ => none) "DEBUG" "") "Debug info: value = 5" "example.c" 254 =
      ⟨[⟨.stderr, "DEBUG (example.c:254): Debug info: value = 5\n"⟩], .next⟩ ∧
    DEBUG_PRINT (setenv (fun _ => none) "DEBUG" "") "Debug info: value = 5" "example.c" 254 ≠
      ⟨[], .next⟩ ∧
    LOG_VAR (setenv (fun _ => none) "DEBUG" "") "result" 832040 "example.c" 199 =
      ⟨[⟨.stderr, "DEBUG: result = 832040 (example.c:199)\n"⟩], .next⟩ ∧
    LOG_VAR (setenv (fun _ => none) "DEBUG" "") "result" 832040 "example.c" 199 ≠
      ⟨[], .next⟩ := by
  refine ⟨by decide, by decide, by decide, by decide, by decide⟩

/-- C20 (amended): `DEBUG_PRINT` and `LOG_VAR` print their DEBUG line exactly
when `getenv("DEBUG")` is non-null at the time of the call, that is when
`DEBUG` is set to any value, the empty string included, and are a no-op when
it is unset; the environment is consulted at every call, so a call after
`setenv` prints and a call after `unsetenv` does not. -/
theorem debug_output_iff_set (env : Env) (value text var_text file : String) (var line : Int) :
    ((DEBUG_PRINT env text file line).out ≠ [] ↔ getenv env "DEBUG" ≠ none) ∧
    ((LOG_VAR env var_text var file line).out ≠ [] ↔ getenv env "DEBUG" ≠ none) ∧
    (DEBUG_PRINT env text file line).ctl = .next ∧
    (LOG_VAR env var_text var file line).ctl = .next ∧
    DEBUG_PRINT (setenv env "DEBUG" value) text file line =
      ⟨[⟨.stderr, "DEBUG (" ++ file ++ ":" ++ fmt_d line ++ "): " ++ text ++ "\n"⟩], .next⟩ ∧
    LOG_VAR (setenv env "DEBUG" value) var_text var file line =
      ⟨[⟨.stderr, "DEBUG: " ++ var_text ++ " = " ++ fmt_d (to_int var) ++ " (" ++ file ++ ":" ++
        fmt_d line ++ ")\n"⟩], .next⟩ ∧
    DEBUG_PRINT (unsetenv env "DEBUG") text file line = ⟨[], .next⟩ ∧
    LOG_VAR (unsetenv env "DEBUG") var_text var file line = ⟨[], .next⟩ := by
  refine ⟨?_, ?_, ?_, ?_, ?_, ?_, ?_, ?_⟩
  · cases h : getenv env "DEBUG" <;> simp [DEBUG_PRINT, h]
  · cases h : getenv env "DEBUG" <;> simp [LOG_VAR, h]
  · unfold DEBUG_PRINT; split <;> rfl
  · unfold LOG_VAR; split <;> rfl
  · simp [DEBUG_PRINT, getenv, setenv]
  · simp [LOG_VAR, getenv, setenv]
  · simp [DEBUG_PRINT, getenv, unsetenv]
  · simp [LOG_VAR, getenv, unsetenv]

/-- C21: for `int` bounds `min <= max` with `max - min + 1` representable and
every value `r` that `rand()` can return, `RANDOM_INT(min, max)` is defined,
equals `r % (max - min + 1) + min` and lies in `[min, max]`, so
`TEST_ASSERT_IN_RANGE` on it passes; every value of `[min, max]` is
`RANDOM_INT(min, max)` for some `r` between 0 and `RAND_MAX`. -/
theorem RANDOM_INT_in_range (r min max : Int) (M : String)
    (hmin : INT_MIN ≤ min ∧ min ≤ INT_MAX) (hmax : INT_MIN ≤ max ∧ max ≤ INT_MAX)
    (hle : min ≤ max) (hrep : max - min + 1 ≤ INT_MAX) (hr : 0 ≤ r ∧ r ≤ RAND_MAX) :
    (∃ v : Int, RANDOM_INT r min max = some v ∧ v = r % (max - min + 1) + min ∧
      min ≤ v ∧ v ≤ max ∧
      TEST_ASSERT_IN_RANGE v min max M = ⟨[⟨.stdout, "PASS: " ++ M ++ "\n"⟩], .next⟩) ∧
    (∀ w : Int, min ≤ w → w ≤ max →
      ∃ r2 : Int, 0 ≤ r2 ∧ r2 ≤ max - min ∧ r2 ≤ RAND_MAX ∧
        RANDOM_INT r2 min max = some w) := by
  constructor
  · obtain ⟨h1, h2, h3⟩ := RANDOM_INT_eq r min max hle hmin.1 hmax.2 hrep hr.1
    refine ⟨_, h1, rfl, h2, h3, ?_⟩
    simp [TEST_ASSERT_IN_RANGE, not_lt.mpr h2, not_lt.mpr h3]
  · intro w hw1 hw2
    have hrep2 : max - min + 1 ≤ (2147483647 : Int) := hrep
    obtain ⟨h1, _, _⟩ := RANDOM_INT_eq (w - min) min max hle hmin.1 hmax.2 hrep (by omega)
    have hmod : (w - min) % (max - min + 1) = w - min :=
      Int.emod_eq_of_lt (by omega) (by omega)
    refine ⟨w - min, by omega, by omega, ?_, ?_⟩
    · unfold RAND_MAX
      omega
    · rw [h1, hmod]
      congr 1
      omega

/-- Witness for C21: `RANDOM_INT(10, 20)` of `test_range_checks` for the value
1804289383 of `rand()`. -/
theorem RANDOM_INT_in_range_witness :
    (INT_MIN ≤ 10 ∧ 10 ≤ INT_MAX) ∧ (INT_MIN ≤ 20 ∧ 20 ≤ INT_MAX) ∧ (10 : Int) ≤ 20 ∧
    (20 - 10 + 1 : Int) ≤ INT_MAX ∧ ((0 : Int) ≤ 1804289383 ∧ 1804289383 ≤ RAND_MAX) ∧
    ∃ v : Int, RANDOM_INT 1804289383 10 20 = some v ∧ v = 1804289383 % (20 - 10 + 1) + 10 ∧
      10 ≤ v ∧ v ≤ 20 ∧
      TEST_ASSERT_IN_RANGE v 10 20 "Random value should be in specified range" =
        ⟨[⟨.stdout, "PASS: " ++ "Random value should be in specified range" ++ "\n"⟩], .next⟩ :=
  have h1 : INT_MIN ≤ 10 ∧ 10 ≤ INT_MAX := by decide
  have h2 : INT_MIN ≤ 20 ∧ 20 ≤ INT_MAX := by decide
  have h3 : (10 : Int) ≤ 20 := by decide
  have h4 : (20 - 10 + 1 : Int) ≤ INT_MAX := by decide
  have h5 : (0 : Int) ≤ 1804289383 ∧ 1804289383 ≤ RAND_MAX := by decide
  ⟨h1, h2, h3, h4, h5,
    (RANDOM_INT_in_range 1804289383 10 20 "Random value should be in specified range"
      h1 h2 h3 h4 h5).1⟩

/-- C22: `RUN_TEST` tests the value returned by the unit for being non-zero:
`tests_passed` is incremented exactly when `r != 0` (negative values and values
above 1 included) and `tests_failed` exactly when `r == 0`; `total_tests` is
incremented in both cases. -/
theorem RUN_TEST_truthiness (name : String) (out : List Line) (r : Int) (c : Counters) :
    ((RUN_TEST name ⟨out, .returned r⟩ c).2 =
        ⟨c.tests_passed + 1, c.tests_failed, c.total_tests + 1⟩ ↔ r ≠ 0) ∧
    ((RUN_TEST name ⟨out, .returned r⟩ c).2 =
        ⟨c.tests_passed, c.tests_failed + 1, c.total_tests + 1⟩ ↔ r = 0) ∧
    ((RUN_TEST name ⟨out, .returned r⟩ c).1 =
        ⟨⟨.stdout, "Running " ++ name ++ "...\n"⟩ :: out ++
          [⟨.stdout, "✓ " ++ name ++ " passed\n\n"⟩], .next⟩ ↔ r ≠ 0) ∧
    (RUN_TEST name ⟨out, .returned (-1)⟩ c).2 =
      ⟨c.tests_passed + 1, c.tests_failed, c.total_tests + 1⟩ ∧
    (RUN_TEST name ⟨out, .returned 2⟩ c).2 =
      ⟨c.tests_passed + 1, c.tests_failed, c.total_tests + 1⟩ ∧
    (RUN_TEST name ⟨out, .returned 0⟩ c).2 =
      ⟨c.tests_passed, c.tests_failed + 1, c.total_tests + 1⟩ := by
  refine ⟨?_, ?_, ?_, by simp [RUN_TEST], by simp [RUN_TEST], by simp [RUN_TEST]⟩
  · by_cases h : r = 0 <;> simp [RUN_TEST, h]
  · by_cases h : r = 0 <;> simp [RUN_TEST, h]
  · by_cases h : r = 0
    · subst h
      have hne : ("✗ " ++ name ++ " failed\n\n" : String) ≠ "✓ " ++ name ++ " passed\n\n" := by
        intro hc
        have h2 := congrArg (fun s : String => s.data.head?) hc
        simp [String.data_append] at h2
      simp [RUN_TEST, hne]
    · simp [RUN_TEST, h]

/-- Counterexample for C23: with a negative epsilon the assertion passes on two
equal infinities, whose difference is NaN, and on a NaN argument; with epsilon 0
it passes on NaN against 1 although `actual == expected` is false. -/
theorem float_eq_passes_on_nan_difference :
    Double.lt (.finite (-1)) (.finite 0) = true ∧
    Double.eq .pinf .pinf = true ∧
    TEST_ASSERT_FLOAT_EQ_double (fun _ => "") .pinf .pinf (.finite (-1)) "m" =
      ⟨[⟨.stdout, "PASS: m\n"⟩], .next⟩ ∧
    TEST_ASSERT_FLOAT_EQ_double (fun _ => "") .nan (.finite 1) (.finite (-1)) "m" =
      ⟨[⟨.stdout, "PASS: m\n"⟩], .next⟩ ∧
    Double.eq .nan (.finite 1) = false ∧
    TEST_ASSERT_FLOAT_EQ_double (fun _ => "") .nan (.finite 1) (.finite 0) "m" =
      ⟨[⟨.stdout, "PASS: m\n"⟩], .next⟩ := by
  refine ⟨?_, rfl, ?_, ?_, rfl, ?_⟩
  · simp [Double.lt]
  · simp [TEST_ASSERT_FLOAT_EQ_double, Double.sub, Double.lt]
  · simp [TEST_ASSERT_FLOAT_EQ_double, Double.sub, Double.lt]
  · simp [TEST_ASSERT_FLOAT_EQ_double, Double.sub, Double.lt]

/-- C23 (amended): on doubles with their special values, a negative epsilon
makes `TEST_ASSERT_FLOAT_EQ` fail, the unit returning 0, for every pair of
values whose difference is not NaN, equal finite values included; with epsilon
0 and a difference that is not NaN it passes exactly when `actual == expected`;
when the difference is NaN (an operand is NaN, or both are the same infinity)
it passes whatever epsilon is.  On finite values the outcome is that of the
macro on exact rationals. -/
theorem TEST_ASSERT_FLOAT_EQ_epsilon_sign (fmt_f : Double → String)
    (actual expected epsilon : Double) (M : String) :
    (Double.sub actual expected = .nan ↔
      actual = .nan ∨ expected = .nan ∨ (actual = .pinf ∧ expected = .pinf) ∨
        (actual = .ninf ∧ expected = .ninf)) ∧
    (Double.sub actual expected ≠ .nan → Double.lt epsilon (.finite 0) = true →
      (TEST_ASSERT_FLOAT_EQ_double fmt_f actual expected epsilon M).ctl = .returns 0) ∧
    (∀ a eps : ℚ, eps < 0 →
      (TEST_ASSERT_FLOAT_EQ_double fmt_f (.finite a) (.finite a) (.finite eps) M).ctl =
        .returns 0) ∧
    (Double.sub actual expected ≠ .nan →
      (TEST_ASSERT_FLOAT_EQ_double fmt_f actual expected (.finite 0) M =
          ⟨[⟨.stdout, "PASS: " ++ M ++ "\n"⟩], .next⟩ ↔
        Double.eq actual expected = true)) ∧
    (Double.sub actual expected = .nan →
      TEST_ASSERT_FLOAT_EQ_double fmt_f actual expected epsilon M =
        ⟨[⟨.stdout, "PASS: " ++ M ++ "\n"⟩], .next⟩) ∧
    (∀ a e eps : ℚ,
      (TEST_ASSERT_FLOAT_EQ_double fmt_f (.finite a) (.finite e) (.finite eps) M).ctl =
        (TEST_ASSERT_FLOAT_EQ (fun q => fmt_f (.finite q)) a e eps M).ctl) := by
  refine ⟨double_sub_eq_nan_iff actual expected,
    float_eq_double_fail_of_neg fmt_f actual expected epsilon M, ?_,
    float_eq_double_zero_iff fmt_f actual expected M,
    float_eq_double_pass_of_nan fmt_f actual expected epsilon M,
    fun a e eps => float_eq_double_finite fmt_f a e eps M⟩
  intro a eps heps
  apply float_eq_double_fail_of_neg
  · simp [Double.sub]
  · simp [Double.lt, heps]

/-- Witness for C23: epsilon -1/1000 on two equal finite values, on an infinity
against a finite value, and epsilon 0 on two equal values. -/
theorem TEST_ASSERT_FLOAT_EQ_epsilon_sign_witness :
    Double.sub (.finite (314159 / 100000)) (.finite (314159 / 100000)) ≠ .nan ∧
    Double.lt (.finite (-1 / 1000)) (.finite 0) = true ∧
    (TEST_ASSERT_FLOAT_EQ_double (fun _ => "") (.finite (314159 / 100000))
      (.finite (314159 / 100000)) (.finite (-1 / 1000)) "pi").ctl = .returns 0 ∧
    Double.sub .pinf (.finite 1) ≠ .nan ∧
    (TEST_ASSERT_FLOAT_EQ_double (fun _ => "") .pinf (.finite 1) (.finite (-1 / 1000))
      "pi").ctl = .returns 0 ∧
    TEST_ASSERT_FLOAT_EQ_double (fun _ => "") (.finite (314159 / 100000))
      (.finite (314159 / 100000)) (.finite 0) "pi" = ⟨[⟨.stdout, "PASS: pi\n"⟩], .next⟩ :=
  have h1 : Double.sub (.finite (314159 / 100000)) (.finite (314159 / 100000)) ≠ .nan := by
    simp [Double.sub]
  have h2 : Double.lt (.finite (-1 / 1000)) (.finite 0) = true := by
    simp only [Double.lt, decide_eq_true_eq]
    norm_num
  have h3 : Double.sub .pinf (.finite 1) ≠ .nan := by
    simp [Double.sub]
  have h4 : Double.eq (.finite (314159 / 100000)) (.finite (314159 / 100000)) = true := by
    simp [Double.eq]
  ⟨h1, h2,
    (TEST_ASSERT_FLOAT_EQ_epsilon_sign (fun _ => "") (.finite (314159 / 100000))
      (.finite (314159 / 100000)) (.finite (-1 / 1000)) "pi").2.1 h1 h2,
    h3,
    (TEST_ASSERT_FLOAT_EQ_epsilon_sign (fun _ => "") .pinf (.finite 1)
      (.finite (-1 / 1000)) "pi").2.1 h3 h2,
    ((TEST_ASSERT_FLOAT_EQ_epsilon_sign (fun _ => "") (.finite (314159 / 100000))
      (.finite (314159 / 100000)) (.finite 0) "pi").2.2.2.1 h1).mpr h4⟩

/-- C24: `TRACK_MALLOC` and `TRACK_FREE` on a null pointer leave both ledger
counters as they were, so tracking a failed allocation changes nothing in what
`CHECK_MEMORY_LEAKS` reports (from a fresh ledger: the all-clear line); on a
non-null pointer `TRACK_MALLOC` adds one to the malloc counter and leaves the
free counter, `TRACK_FREE` adds one to the free counter and leaves the malloc
counter. -/
theorem tracking_null_pointer (l : Ledger) (p : Nat) :
    TRACK_MALLOC NULL l = l ∧
    TRACK_FREE NULL l = l ∧
    CHECK_MEMORY_LEAKS (TRACK_MALLOC NULL l) = CHECK_MEMORY_LEAKS l ∧
    CHECK_MEMORY_LEAKS (TRACK_FREE NULL (TRACK_MALLOC NULL l)) = CHECK_MEMORY_LEAKS l ∧
    (CHECK_MEMORY_LEAKS (TRACK_MALLOC NULL MALLOC_COUNT_START)).1 =
      ⟨[⟨.stdout, "MEMORY: All allocations freed (0 mallocs, 0 frees)\n"⟩], .next⟩ ∧
    (p ≠ NULL →
      (TRACK_MALLOC p l)._malloc_count = l._malloc_count + 1 ∧
      (TRACK_MALLOC p l)._free_count = l._free_count ∧
      (TRACK_FREE p l)._free_count = l._free_count + 1 ∧
      (TRACK_FREE p l)._malloc_count = l._malloc_count) := by
  have h1 : TRACK_MALLOC NULL l = l := by simp [TRACK_MALLOC]
  have h2 : TRACK_FREE NULL l = l := by simp [TRACK_FREE]
  refine ⟨h1, h2, by rw [h1], by rw [h1, h2], by decide, fun hp => ?_⟩
  simp [TRACK_MALLOC, TRACK_FREE, hp]

/-- Witness for C24: the address 4096 on the ledger (2, 1). -/
theorem tracking_null_pointer_witness :
    (4096 : Nat) ≠ NULL ∧
    (TRACK_MALLOC 4096 ⟨2, 1⟩)._malloc_count = 2 + 1 ∧
    (TRACK_MALLOC 4096 ⟨2, 1⟩)._free_count = 1 ∧
    (TRACK_FREE 4096 ⟨2, 1⟩)._free_count = 1 + 1 ∧
    (TRACK_FREE 4096 ⟨2, 1⟩)._malloc_count = 2 :=
  have h : (4096 : Nat) ≠ NULL := by decide
  ⟨h, (tracking_null_pointer ⟨2, 1⟩ 4096).2.2.2.2.2 h⟩

end GlitchSnitch
